import Mathlib

/-!
Shallow embedding of the synthetic financial-data generator in
`src/streamlit_app.py` (a single-file data-generation tool), together with
theorems checking the repository's specification claims against it.

Modelling conventions, used uniformly below:
* Python floats are modelled as exact rationals (`ℚ`); `round(x, p)` becomes
  `roundQ p x`.
* The ambient random source is modelled by explicit oracle arguments:
  `random.uniform(a, b)` becomes `uniformQ a b u` where `u` is the underlying
  unit-interval sample supplied by an oracle stream, `random.randint(a, b)`
  becomes `randintN a b s` (which realises exactly the integers of `[a, b]`
  from an arbitrary natural seed `s`), `random.gauss(0, σ)` draws are supplied
  directly as rational oracle values (their distribution is not modelled), and
  `random.choice(l)` becomes `listChoice d l s` (which raises, i.e. has no
  value, only on an empty list; every generator below checks emptiness
  explicitly exactly where the Python code would raise).
* Calendar dates are modelled as day offsets (`ℕ`) from the generator's start
  date; the `strftime` formatting of a date is dropped, arithmetic on dates is
  kept.
* Python functions that can raise on the modelled paths return `Option`,
  `none` standing for an uncaught exception.
-/

/-- `random.uniform a b` given the underlying unit sample `u`:
`a + (b - a) * u`. -/
def uniformQ (a b u : ℚ) : ℚ := a + (b - a) * u

/-- `random.randint a b` (inclusive bounds) given a natural oracle seed `s`:
realises exactly the values `a, a+1, …, b`. -/
def randintN (a b s : ℕ) : ℕ := a + s % (b - a + 1)

/-- Python `round(x, p)` on exact rationals: round `x` to `p` decimal places.
(Tie-breaking at exact halves is irrelevant to every claim proved below.) -/
def roundQ (p : ℕ) (x : ℚ) : ℚ := (round (x * (10 : ℚ) ^ p) : ℤ) / (10 : ℚ) ^ p

/-- `random.choice l` given a natural oracle seed; `d` is a placeholder
default that is never reached when `l ≠ []` (the only situation in which the
Python call returns at all). -/
def listChoice {α : Type} (d : α) (l : List α) (s : ℕ) : α :=
  l.getD (s % l.length) d

theorem listChoice_mem {α : Type} (d : α) {l : List α} (h : l ≠ []) (s : ℕ) :
    listChoice d l s ∈ l := by
  have hlen : 0 < l.length := List.length_pos.mpr h
  have hlt : s % l.length < l.length := Nat.mod_lt _ hlen
  unfold listChoice
  rw [List.getD_eq_getElem _ _ hlt]
  exact List.getElem_mem _

theorem randintN_le (a b s : ℕ) (h : a ≤ b) : a ≤ randintN a b s ∧ randintN a b s ≤ b := by
  have hm : s % (b - a + 1) < b - a + 1 := Nat.mod_lt _ (Nat.succ_pos _)
  unfold randintN
  omega

/-! ## Identifier synthesizers (`generate_lei`, `generate_bic`, `generate_isin`)

`random.choices(pop, k=n)` is modelled by a list of `n` characters each drawn
from the population `pop`; the population constraints appear as hypotheses of
the theorems. -/

/-- Membership in Python's `string.ascii_uppercase + string.digits`. -/
def isUpperOrDigit (c : Char) : Prop :=
  ('A' ≤ c ∧ c ≤ 'Z') ∨ ('0' ≤ c ∧ c ≤ '9')

instance (c : Char) : Decidable (isUpperOrDigit c) := by
  unfold isUpperOrDigit; infer_instance

/-- Membership in Python's `string.digits`. -/
def isDigitChar (c : Char) : Prop := '0' ≤ c ∧ c ≤ '9'

instance (c : Char) : Decidable (isDigitChar c) := by
  unfold isDigitChar; infer_instance

/-- `generate_lei`: `"LEI" + ''.join(random.choices(upper+digits, k=16))
+ random.choice(string.digits) * 2` — the final one-character choice is
string-repeated twice. `cs` are the sixteen choices, `d` the chosen digit. -/
def generate_lei (cs : List Char) (d : Char) : String :=
  "LEI" ++ String.mk cs ++ String.mk [d, d]

/-- `generate_bic`: four upper-case letters, then `2 + 2 + 3` characters from
letters+digits. -/
def generate_bic (c4 : List Char) (c2a c2b : List Char) (c3 : List Char) : String :=
  String.mk c4 ++ String.mk c2a ++ String.mk c2b ++ String.mk c3

/-- `generate_isin(prefix)`: the prefix, nine characters from letters+digits,
and one digit. -/
def generate_isin (pfx : String) (cs : List Char) (d : Char) : String :=
  pfx ++ String.mk cs ++ String.mk [d]

/-- Claim C9 (counterexample): `generate_lei` does not return a 20-character
string; at the concrete, reachable input where all sixteen `choices` come out
`'A'` and the chosen digit is `'0'`, the result has 21 characters (the
trailing `random.choice(string.digits) * 2` appends the same digit twice on
top of the `"LEI"` tag and the 16 random characters). -/
theorem generate_lei_length_is_not_twenty :
    (generate_lei (List.replicate 16 'A') '0').length ≠ 20 := by decide

/-- Claim C9 (amended): every identifier produced by the synthesizers has a
fixed length over the letters+digits charset — but `generate_lei` returns a
21-character string (3-character tag + 16 choices + a doubled digit), not the
standard 20; `generate_bic` returns 11 characters and `generate_isin` with a
2-character prefix returns 12 characters, as claimed. -/
theorem identifier_lengths (cs : List Char) (d : Char)
    (b4 b2a b2b b3 : List Char) (pfx : String) (ics : List Char) (idg : Char)
    (hcs : cs.length = 16) (hcsm : ∀ c ∈ cs, isUpperOrDigit c)
    (hd : isDigitChar d)
    (hb4 : b4.length = 4) (hb4m : ∀ c ∈ b4, 'A' ≤ c ∧ c ≤ 'Z')
    (hb2a : b2a.length = 2) (hb2am : ∀ c ∈ b2a, isUpperOrDigit c)
    (hb2b : b2b.length = 2) (hb2bm : ∀ c ∈ b2b, isUpperOrDigit c)
    (hb3 : b3.length = 3) (hb3m : ∀ c ∈ b3, isUpperOrDigit c)
    (hpfx : pfx.length = 2) (hpfxm : ∀ c ∈ pfx.data, isUpperOrDigit c)
    (hics : ics.length = 9) (hicsm : ∀ c ∈ ics, isUpperOrDigit c)
    (hidg : isDigitChar idg) :
    ((generate_lei cs d).length = 21 ∧
      ∀ c ∈ (generate_lei cs d).data, isUpperOrDigit c) ∧
    ((generate_bic b4 b2a b2b b3).length = 11 ∧
      ∀ c ∈ (generate_bic b4 b2a b2b b3).data, isUpperOrDigit c) ∧
    ((generate_isin pfx ics idg).length = 12 ∧
      ∀ c ∈ (generate_isin pfx ics idg).data, isUpperOrDigit c) := by
  refine ⟨⟨?_, ?_⟩, ⟨?_, ?_⟩, ⟨?_, ?_⟩⟩
  · simp [generate_lei, String.length_append, String.length_mk, hcs]
    rfl
  · intro c hc
    have hsplit : c = 'L' ∨ c = 'E' ∨ c = 'I' ∨ c ∈ cs ∨ c = d := by
      simp [generate_lei, String.data_append] at hc
      tauto
    rcases hsplit with hc1 | hc1 | hc1 | hc1 | hc1
    · subst hc1; decide
    · subst hc1; decide
    · subst hc1; decide
    · exact hcsm c hc1
    · subst hc1; exact Or.inr hd
  · simp [generate_bic, String.length_append, String.length_mk, hb4, hb2a, hb2b, hb3]
  · intro c hc
    have hsplit : c ∈ b4 ∨ c ∈ b2a ∨ c ∈ b2b ∨ c ∈ b3 := by
      simp [generate_bic, String.data_append] at hc
      tauto
    rcases hsplit with hc1 | hc1 | hc1 | hc1
    · exact Or.inl (hb4m c hc1)
    · exact hb2am c hc1
    · exact hb2bm c hc1
    · exact hb3m c hc1
  · simp [generate_isin, String.length_append, String.length_mk, hpfx, hics]
  · intro c hc
    have hsplit : c ∈ pfx.data ∨ c ∈ ics ∨ c = idg := by
      simp [generate_isin, String.data_append] at hc
      tauto
    rcases hsplit with hc1 | hc1 | hc1
    · exact hpfxm c hc1
    · exact hicsm c hc1
    · subst hc1; exact Or.inr hidg

/-- Claim C9 witness: the amended statement evaluated at a concrete input. -/
theorem identifier_lengths_witness :
    ((generate_lei (List.replicate 16 'A') '7').length = 21 ∧
      ∀ c ∈ (generate_lei (List.replicate 16 'A') '7').data, isUpperOrDigit c) ∧
    ((generate_bic ['A', 'B', 'C', 'D'] ['U', 'S'] ['3', '3'] ['X', 'X', 'X']).length = 11 ∧
      ∀ c ∈ (generate_bic ['A', 'B', 'C', 'D'] ['U', 'S'] ['3', '3'] ['X', 'X', 'X']).data,
        isUpperOrDigit c) ∧
    ((generate_isin "XS" ['0', '1', '2', '3', '4', '5', '6', '7', 'Z'] '9').length = 12 ∧
      ∀ c ∈ (generate_isin "XS" ['0', '1', '2', '3', '4', '5', '6', '7', 'Z'] '9').data,
        isUpperOrDigit c) :=
  identifier_lengths (List.replicate 16 'A') '7'
    ['A', 'B', 'C', 'D'] ['U', 'S'] ['3', '3'] ['X', 'X', 'X']
    "XS" ['0', '1', '2', '3', '4', '5', '6', '7', 'Z'] '9'
    (by decide) (by decide) (by decide) (by decide) (by decide) (by decide)
    (by decide) (by decide) (by decide) (by decide) (by decide) (by decide)
    (by decide) (by decide) (by decide) (by decide)

/-! ## Reference data and the master data model

Static lookup tables from the top of `streamlit_app.py`, and structures for
the master entities. The session-cached master data (`MASTER_ENTITIES`,
`MASTER_FUNDS_DF`, `MASTER_SECURITIES_DF`) is modelled by passing the lists of
master records explicitly to each generator. -/

structure FundConfig where
  asset_classes : List String
  tx_freq_min : ℕ
  tx_freq_max : ℕ
  avg_annual_return_pct : ℚ
  daily_volatility_pct : ℚ
  typical_expense_ratio_pct : ℚ
  isin_pfx : String
  target_aum_min : ℚ
  target_aum_max : ℚ
deriving DecidableEq, Inhabited

def FUND_TYPES : List (String × FundConfig) :=
  [("Traditional UCITS",
    { asset_classes := ["Equity", "Fixed Income", "Cash", "Money Market"],
      tx_freq_min := 1, tx_freq_max := 5,
      avg_annual_return_pct := 8/100, daily_volatility_pct := 15/1000,
      typical_expense_ratio_pct := 5/1000, isin_pfx := "LU",
      target_aum_min := 500000000, target_aum_max := 2000000000 }),
   ("Private Equity",
    { asset_classes := ["Private Equity", "Cash"],
      tx_freq_min := 30, tx_freq_max := 180,
      avg_annual_return_pct := 15/100, daily_volatility_pct := 5/1000,
      typical_expense_ratio_pct := 2/100, isin_pfx := "GG",
      target_aum_min := 100000000, target_aum_max := 1000000000 })]

/-- `FUND_TYPES.get(fund_type_filter, default)` with a `None`-able key; the
result is `none` when the Python `.get` would return the supplied default. -/
def fundTypesGet (k : Option String) : Option FundConfig :=
  match k with
  | none => none
  | some s => (FUND_TYPES.find? (fun p => p.1 == s)).map Prod.snd

def CURRENCIES : List String := ["USD", "EUR", "GBP", "CHF", "JPY", "CAD", "AUD"]

def COUNTRIES : List String :=
  ["USA", "GBR", "DEU", "FRA", "LUX", "IRL", "CAN", "JPN", "AUS"]

def EXCHANGE_MICS : List String :=
  ["XNYS", "XLON", "XETR", "TSE", "NSE", "NASDAQ", "SSE"]

structure Fund where
  fund_id : String
  fund_name : String
  fund_isin : String
  fund_type : String
  legal_structure : String
  inception_days_ago : ℕ
  base_currency : String
  management_company_name : String
  management_company_lei : String
  expense_ratio_pct : ℚ
  target_aum_min : ℚ
  target_aum_max : ℚ
deriving DecidableEq, Inhabited

structure Security where
  security_id : String
  isin : String
  fund_id : String
  security_name : String
  asset_class : String
  currency : String
  issuer : String
  issuer_lei : String
  exchange_mic : String
  instrument_type : String
  sector_gics : String
  sub_sector_gics : String
deriving DecidableEq, Inhabited

structure Shareholder where
  shareholder_id : String
  shareholder_name : String
  shareholder_type : String
  shareholder_country : String
  shareholder_lei : Option String
deriving DecidableEq, Inhabited

structure TAAccount where
  ta_account_id : String
  shareholder_id : String
  distributor_id : String
  representative_id : String
  account_currency : String
  opening_days_ago : ℕ
deriving DecidableEq, Inhabited

structure Custodian where
  custodian_id : String
  name : String
  lei : String
  country : String
  bic : String
deriving DecidableEq, Inhabited

/-- `MASTER_CUSTODIANS`: the three static custodian records; their `lei`/`bic`
fields come from module-load-time random draws, supplied here as arguments. -/
def MASTER_CUSTODIANS (leis bics : ℕ → String) : List Custodian :=
  [{ custodian_id := "CUST001", name := "Global Custody Solutions",
     lei := leis 0, country := "USA", bic := bics 0 },
   { custodian_id := "CUST002", name := "Euro Clearing Bank",
     lei := leis 1, country := "DEU", bic := bics 1 },
   { custodian_id := "CUST003", name := "Asia Pacific Custody",
     lei := leis 2, country := "SGP", bic := bics 2 }]

/-- `get_random_fund_info(fund_type_filter)`: with a truthy filter, sample
from the funds of that type when any exist; otherwise (or with no filter)
sample from the full `MASTER_FUNDS_DF`. `pandas.sample` on an empty frame
raises, modelled by `none`. -/
def get_random_fund_info (filter : Option String) (funds : List Fund) (s : ℕ) :
    Option Fund :=
  match filter with
  | some t =>
    let filtered := funds.filter (fun f => f.fund_type == t)
    if filtered.isEmpty then
      if funds.isEmpty then none else some (listChoice default funds s)
    else some (listChoice default filtered s)
  | none => if funds.isEmpty then none else some (listChoice default funds s)

/-- The `if fund_info is None: fund_info = get_random_fund_info(...)` prologue
shared by the generators. -/
def resolveFund (fund_info : Option Fund) (filter : Option String)
    (funds : List Fund) (s : ℕ) : Option Fund :=
  match fund_info with
  | some f => some f
  | none => get_random_fund_info filter funds s

/-! ## `generate_financial_statements` (claim C1)

One oracle stream `u i j` supplies the `j`-th `random.uniform` unit sample of
record `i`; `u0` is the single pre-loop sample for `base_revenue`. -/

structure FinRow where
  fund_id : String
  report_day : ℕ
  revenue : ℚ
  cost_of_goods_sold : ℚ
  gross_profit : ℚ
  operating_expenses : ℚ
  depreciation_expense : ℚ
  ebit : ℚ
  interest_expense : ℚ
  taxes : ℚ
  net_income : ℚ
  cash : ℚ
  accounts_receivable : ℚ
  inventory : ℚ
  total_current_assets : ℚ
  property_plant_equipment : ℚ
  total_assets : ℚ
  accounts_payable : ℚ
  short_term_debt : ℚ
  total_current_liabilities : ℚ
  long_term_debt : ℚ
  total_liabilities : ℚ
  equity : ℚ
deriving DecidableEq

/-- The body of the `for i in range(num_records)` loop of
`generate_financial_statements`. -/
def finRow (fund : Fund) (base_revenue : ℚ) (u : ℕ → ℚ) (i : ℕ) : FinRow :=
  let revenue := roundQ 2 (base_revenue * uniformQ (8/10) (12/10) (u 1))
  let cogs := roundQ 2 (uniformQ (3/10 * revenue) (6/10 * revenue) (u 2))
  let gross_profit := revenue - cogs
  let operating_expenses := roundQ 2 (uniformQ (15/100 * revenue) (3/10 * revenue) (u 3))
  let depreciation_expense := roundQ 2 (uniformQ (1/100 * revenue) (5/100 * revenue) (u 4))
  let ebit := gross_profit - operating_expenses - depreciation_expense
  let interest_expense := roundQ 2 (if 0 < ebit then uniformQ 0 (5/100 * ebit) (u 5) else 0)
  let taxes := roundQ 2 (if 0 < ebit then uniformQ (15/100 * ebit) (25/100 * ebit) (u 6) else 0)
  let net_income := ebit - interest_expense - taxes
  let base_assets := uniformQ (fund.target_aum_min * (9/10)) (fund.target_aum_max * (11/10)) (u 7)
  let cash := roundQ 2 (base_assets * uniformQ (5/100) (15/100) (u 8))
  let accounts_receivable := roundQ 2 (base_assets * uniformQ (1/100) (5/100) (u 9))
  let inventory := roundQ 2 (base_assets * uniformQ (5/1000) (2/100) (u 10))
  let total_current_assets := cash + accounts_receivable + inventory
  let property_plant_equipment := roundQ 2 (base_assets * uniformQ (1/10) (3/10) (u 11))
  let total_assets := total_current_assets + property_plant_equipment
  let accounts_payable := roundQ 2 (total_assets * uniformQ (1/100) (4/100) (u 12))
  let short_term_debt := roundQ 2 (total_assets * uniformQ (5/1000) (2/100) (u 13))
  let total_current_liabilities := accounts_payable + short_term_debt
  let long_term_debt := roundQ 2 (total_assets * uniformQ (5/100) (15/100) (u 14))
  let total_liabilities := total_current_liabilities + long_term_debt
  let equity := total_assets - total_liabilities
  { fund_id := fund.fund_id, report_day := i * 30,
    revenue := revenue, cost_of_goods_sold := cogs, gross_profit := gross_profit,
    operating_expenses := operating_expenses,
    depreciation_expense := depreciation_expense, ebit := ebit,
    interest_expense := interest_expense, taxes := taxes, net_income := net_income,
    cash := cash, accounts_receivable := accounts_receivable, inventory := inventory,
    total_current_assets := total_current_assets,
    property_plant_equipment := property_plant_equipment, total_assets := total_assets,
    accounts_payable := accounts_payable, short_term_debt := short_term_debt,
    total_current_liabilities := total_current_liabilities,
    long_term_debt := long_term_debt, total_liabilities := total_liabilities,
    equity := equity }

def generate_financial_statements (num_records : ℕ) (fund_info : Option Fund)
    (funds : List Fund) (fsel : ℕ) (u0 : ℚ) (u : ℕ → ℕ → ℚ) :
    Option (List FinRow) :=
  match resolveFund fund_info none funds fsel with
  | none => none
  | some fund =>
    let base_revenue :=
      uniformQ (fund.target_aum_min * (5/1000)) (fund.target_aum_max * (15/1000)) u0 / 12
    some ((List.range num_records).map (fun i => finRow fund base_revenue (u i) i))

/-- Claim C1: every row produced by `generate_financial_statements` satisfies
the balance-sheet construction identities, in exact arithmetic:
`total_assets = total_current_assets + property_plant_equipment`,
`total_liabilities + equity = total_assets`,
`total_current_assets = cash + accounts_receivable + inventory` and
`total_liabilities = total_current_liabilities + long_term_debt`. -/
theorem financial_statements_balance_identities
    (num_records : ℕ) (fund_info : Option Fund) (funds : List Fund)
    (fsel : ℕ) (u0 : ℚ) (u : ℕ → ℕ → ℚ) (rows : List FinRow)
    (hrows : generate_financial_statements num_records fund_info funds fsel u0 u = some rows) :
    ∀ r ∈ rows,
      r.total_assets = r.total_current_assets + r.property_plant_equipment ∧
      r.total_liabilities + r.equity = r.total_assets ∧
      r.total_current_assets = r.cash + r.accounts_receivable + r.inventory ∧
      r.total_liabilities = r.total_current_liabilities + r.long_term_debt := by
  intro r hr
  unfold generate_financial_statements at hrows
  cases hfund : resolveFund fund_info none funds fsel with
  | none => rw [hfund] at hrows; exact absurd hrows (by simp)
  | some fund =>
    rw [hfund] at hrows
    simp only [Option.some.injEq] at hrows
    subst hrows
    simp only [List.mem_map] at hr
    obtain ⟨i, _, hi⟩ := hr
    subst hi
    refine ⟨?_, ?_, ?_, ?_⟩ <;> simp [finRow] <;> ring

/-! ## `generate_securities_transactions` (claims C5, C7)

Oracle streams: `uq i j` is the `j`-th `random.uniform` unit sample of
transaction `i`, `un i j` the `j`-th natural seed (for `randint` and
`choice`) of transaction `i`. -/

structure TxRow where
  transaction_idx : ℕ
  fund_id : String
  fund_isin : String
  fund_type : String
  transaction_day : ℕ
  isin : String
  security_name : String
  asset_class : String
  transaction_type : String
  quantity : ℚ
  price_per_share : ℚ
  gross_amount : ℚ
  net_amount : ℚ
  currency : String
  transaction_fee : ℚ
  ta_account_id : String
  shareholder_id : String
  distributor_id : String
  representative_id : String
  settlement_day : ℕ
  payment_method : String
deriving DecidableEq

def TRANSACTION_TYPES : List String :=
  ["SUBSCRIPTION", "REDEMPTION", "SWITCH_IN", "SWITCH_OUT",
   "DIVIDEND_REINVEST", "DIVIDEND_PAYOUT"]

/-- The body of the `for i in range(num_transactions)` loop: `day` is the
already-advanced `current_date`. `get_random_ta_account_info()` is the
`listChoice` on the master `ta_accounts` list. -/
def txRow (fund : Fund) (tas : List TAAccount) (i day : ℕ)
    (uq : ℕ → ℚ) (un : ℕ → ℕ) : TxRow :=
  let transaction_type := listChoice "" TRANSACTION_TYPES (un 1)
  let quantity := roundQ 4 (uniformQ 10 10000 (uq 0))
  let price_per_share := roundQ 2 (uniformQ 10 500 (uq 1))
  let gross_amount := roundQ 2 (quantity * price_per_share)
  let transaction_fee := roundQ 2 (gross_amount * uniformQ (1/10000) (1/1000) (uq 2))
  let ta := listChoice default tas (un 2)
  let net_amount :=
    if transaction_type ∈ ["SUBSCRIPTION", "SWITCH_IN", "DIVIDEND_REINVEST"] then
      roundQ 2 (gross_amount - transaction_fee)
    else if transaction_type ∈ ["REDEMPTION", "SWITCH_OUT", "DIVIDEND_PAYOUT"] then
      roundQ 2 (gross_amount + transaction_fee)
    else gross_amount
  { transaction_idx := i + 1, fund_id := fund.fund_id, fund_isin := fund.fund_isin,
    fund_type := fund.fund_type, transaction_day := day,
    isin := fund.fund_isin, security_name := fund.fund_name ++ " Share Class",
    asset_class := "Fund Share", transaction_type := transaction_type,
    quantity := quantity, price_per_share := price_per_share,
    gross_amount := gross_amount, net_amount := net_amount,
    currency := fund.base_currency, transaction_fee := transaction_fee,
    ta_account_id := ta.ta_account_id, shareholder_id := ta.shareholder_id,
    distributor_id := ta.distributor_id, representative_id := ta.representative_id,
    settlement_day := day + randintN 1 3 (un 3),
    payment_method := listChoice "" ["BANK_TRANSFER", "CHEQUE", "OTHER"] (un 4) }

/-- The transaction loop, threading `current_date` (which advances by
`randint(min_days, max_days)` before each row is emitted). -/
def txLoop (fund : Fund) (tas : List TAAccount) (mn mx : ℕ)
    (uq : ℕ → ℕ → ℚ) (un : ℕ → ℕ → ℕ) : ℕ → ℕ → ℕ → List TxRow
  | 0, _, _ => []
  | c + 1, i, day =>
    let day1 := day + randintN mn mx (un i 0)
    txRow fund tas i day1 (uq i) (un i) :: txLoop fund tas mn mx uq un c (i + 1) day1

/-- `generate_securities_transactions`. The `none` results model the
exceptions the Python code raises:
* `fundTypesGet filter = none` models the `KeyError` thrown by
  `fund_config["transaction_frequency"]` when `FUND_TYPES.get(fund_type_filter, {})`
  returned the empty default (filter `None` or not a `FUND_TYPES` key) —
  this happens before any fund is sampled;
* `resolveFund … = none` models `pandas.sample` on an empty fund table;
* the final check models `random.choice` on an empty `ta_accounts` list,
  reached only when at least one row is generated. -/
def generate_securities_transactions (num_transactions : ℕ) (filter : Option String)
    (fund_info : Option Fund) (funds : List Fund) (tas : List TAAccount)
    (fsel : ℕ) (uq : ℕ → ℕ → ℚ) (un : ℕ → ℕ → ℕ) : Option (List TxRow) :=
  match fundTypesGet filter with
  | none => none
  | some cfg =>
    match resolveFund fund_info filter funds fsel with
    | none => none
    | some fund =>
      if 0 < num_transactions ∧ tas.isEmpty then none
      else some (txLoop fund tas cfg.tx_freq_min cfg.tx_freq_max uq un num_transactions 0 0)

/-- Concrete master records used by the witnesses below. -/
def testFund : Fund :=
  { fund_id := "FUND001", fund_name := "Global Equity Alpha FUND001",
    fund_isin := "LU00000000A1", fund_type := "Traditional UCITS",
    legal_structure := "UCITS", inception_days_ago := 1500,
    base_currency := "USD", management_company_name := "Acme Asset Mgmt",
    management_company_lei := "LEIAAAAAAAAAAAAAAAA00",
    expense_ratio_pct := 5/1000,
    target_aum_min := 500000000, target_aum_max := 2000000000 }

def testAccount : TAAccount :=
  { ta_account_id := "TAACC00001", shareholder_id := "SH00001",
    distributor_id := "DIST001", representative_id := "REP0001",
    account_currency := "USD", opening_days_ago := 400 }

def testSecurity : Security :=
  { security_id := "SEC100000", isin := "US00000000B2", fund_id := "FUND001",
    security_name := "AAA Corp. 00B2", asset_class := "Equity",
    currency := "USD", issuer := "Issuer 1", issuer_lei := "LEIBBBBBBBBBBBBBBBB11",
    exchange_mic := "XNYS", instrument_type := "Equity",
    sector_gics := "Financials", sub_sector_gics := "Banks" }

def testShareholder : Shareholder :=
  { shareholder_id := "SH00001", shareholder_name := "Investor SH00001",
    shareholder_type := "Individual", shareholder_country := "USA",
    shareholder_lei := none }

/-- Claim C5 (code bug): `generate_securities_transactions` called with
`fund_type_filter = None` (and no explicit `fund_info`) does not sample a fund
and return a table — it raises `KeyError`, because
`FUND_TYPES.get(fund_type_filter, {})` yields the empty dict and the very next
line indexes `fund_config["transaction_frequency"]`, before any fund is
sampled. Modelled: the embedded function evaluates to `none` (the exception)
even with nonempty master fund and account pools. -/
theorem securities_transactions_keyerror_on_missing_fund_type :
    generate_securities_transactions 1 none none [testFund] [testAccount] 0
      (fun _ _ => 0) (fun _ _ => 0) = none := rfl

theorem txLoop_mem (fund : Fund) (tas : List TAAccount) (mn mx : ℕ)
    (uq : ℕ → ℕ → ℚ) (un : ℕ → ℕ → ℕ) :
    ∀ (c i day : ℕ) (r : TxRow), r ∈ txLoop fund tas mn mx uq un c i day →
      ∃ j d1, r = txRow fund tas j d1 (uq j) (un j) := by
  intro c
  induction c with
  | zero => intro i day r hr; simp [txLoop] at hr
  | succ c ih =>
    intro i day r hr
    simp only [txLoop, List.mem_cons] at hr
    rcases hr with hr | hr
    · exact ⟨i, _, hr⟩
    · exact ih _ _ r hr

/-- Claim C7: every transaction row takes its `ta_account_id`,
`shareholder_id`, `distributor_id` and `representative_id` from one single
transfer-agency account record of the master entity set — the row's
distributor and representative are exactly that account's own linkage. -/
theorem transactions_reference_single_ta_account
    (n : ℕ) (filter : Option String) (fund_info : Option Fund)
    (funds : List Fund) (tas : List TAAccount) (fsel : ℕ)
    (uq : ℕ → ℕ → ℚ) (un : ℕ → ℕ → ℕ) (rows : List TxRow)
    (hrows : generate_securities_transactions n filter fund_info funds tas fsel uq un
      = some rows) :
    ∀ r ∈ rows, ∃ a ∈ tas,
      r.ta_account_id = a.ta_account_id ∧ r.shareholder_id = a.shareholder_id ∧
      r.distributor_id = a.distributor_id ∧ r.representative_id = a.representative_id := by
  intro r hr
  unfold generate_securities_transactions at hrows
  cases hcfg : fundTypesGet filter with
  | none => rw [hcfg] at hrows; exact absurd hrows (by simp)
  | some cfg =>
    rw [hcfg] at hrows
    cases hfund : resolveFund fund_info filter funds fsel with
    | none => rw [hfund] at hrows; exact absurd hrows (by simp)
    | some fund =>
      rw [hfund] at hrows
      dsimp only at hrows
      by_cases hif : 0 < n ∧ tas.isEmpty = true
      · rw [if_pos hif] at hrows; exact absurd hrows (by simp)
      · rw [if_neg hif] at hrows
        simp only [Option.some.injEq] at hrows
        subst hrows
        obtain ⟨j, d1, hr1⟩ := txLoop_mem fund tas _ _ uq un n 0 0 r hr
        have htas : tas ≠ [] := by
          intro hnil
          rcases Nat.eq_zero_or_pos n with hn | hn
          · subst hn; simp [txLoop] at hr
          · exact hif ⟨hn, by simp [hnil]⟩
        refine ⟨listChoice default tas (un j 2), listChoice_mem _ htas _, ?_⟩
        subst hr1
        refine ⟨rfl, rfl, rfl, rfl⟩

/-- Claim C7 witness: the theorem applied at a concrete input (one
transaction for the test fund against a one-account master pool). -/
theorem transactions_reference_single_ta_account_witness :
    ∃ a ∈ [testAccount],
      (txRow testFund [testAccount] 0 1 (fun _ => 0) (fun _ => 0)).ta_account_id
          = a.ta_account_id ∧
      (txRow testFund [testAccount] 0 1 (fun _ => 0) (fun _ => 0)).shareholder_id
          = a.shareholder_id ∧
      (txRow testFund [testAccount] 0 1 (fun _ => 0) (fun _ => 0)).distributor_id
          = a.distributor_id ∧
      (txRow testFund [testAccount] 0 1 (fun _ => 0) (fun _ => 0)).representative_id
          = a.representative_id :=
  transactions_reference_single_ta_account 1 (some "Traditional UCITS")
    (some testFund) [] [testAccount] 0 (fun _ _ => 0) (fun _ _ => 0) _ rfl
    _ (List.mem_singleton.mpr rfl)

/-! ## `generate_genie_corporate_actions` (claim C10) -/

/-- The heterogeneous `ratio_or_amount` field (Python: `None`, a float, or a
descriptive string, depending on the corporate-action type). -/
inductive CADetail where
  | noneSet : CADetail
  | dividendAmount (amt : ℚ) : CADetail
  | splitRatio (num den : ℕ) : CADetail
  | mergerAcquirer (nm : String) : CADetail
deriving DecidableEq

structure CARow where
  ca_idx : ℕ
  fund_id : String
  security_id : String
  isin : String
  security_name : String
  ca_type : String
  announcement_day : ℕ
  ex_day : ℕ
  record_day : ℕ
  pay_day : ℕ
  ratio_or_amount : CADetail
  currency : Option String
deriving DecidableEq

def CA_TYPES : List String := ["DIVIDEND", "STOCK_SPLIT", "MERGER"]

def ASCII_UPPER : List Char :=
  ['A', 'B', 'C', 'D', 'E', 'F', 'G', 'H', 'I', 'J', 'K', 'L', 'M',
   'N', 'O', 'P', 'Q', 'R', 'S', 'T', 'U', 'V', 'W', 'X', 'Y', 'Z']

/-- The filter prologue shared by `generate_genie_corporate_actions` and
`generate_genie_daily_security_prices`: with a truthy fund-type filter, keep
only securities whose `fund_id` belongs to a fund of that type. -/
def securitiesForType (filter : Option String) (funds : List Fund)
    (secs : List Security) : List Security :=
  match filter with
  | some t =>
    let ids := (funds.filter (fun f => f.fund_type == t)).map (fun f => f.fund_id)
    secs.filter (fun s => ids.contains s.fund_id)
  | none => secs

/-- One corporate-action record. The merger acquirer is a
`random.choice(string.ascii_uppercase * 3)` — tripling the population does
not change its support, so a single choice from the 26 letters is drawn. -/
def caRow (sfc : List Security) (i : ℕ) (un : ℕ → ℕ) (uq : ℕ → ℚ) : CARow :=
  let sec := listChoice default sfc (un 0)
  let ca_type := listChoice "" CA_TYPES (un 1)
  let announcement_day := randintN 1 365 (un 2)
  let ex_day := announcement_day + randintN 10 30 (un 3)
  let record_day := ex_day + randintN 1 5 (un 4)
  let pay_day := record_day + randintN 5 20 (un 5)
  let detail :=
    if ca_type = "DIVIDEND" then CADetail.dividendAmount (roundQ 2 (uniformQ (1/10) 5 (uq 0)))
    else if ca_type = "STOCK_SPLIT" then CADetail.splitRatio (listChoice 2 [2, 3] (un 6)) 1
    else if ca_type = "MERGER" then
      CADetail.mergerAcquirer
        ("Acquirer: " ++ String.mk [listChoice 'A' ASCII_UPPER (un 7)] ++ " Corp.")
    else CADetail.noneSet
  { ca_idx := i + 1, fund_id := sec.fund_id, security_id := sec.security_id,
    isin := sec.isin, security_name := sec.security_name, ca_type := ca_type,
    announcement_day := announcement_day, ex_day := ex_day,
    record_day := record_day, pay_day := pay_day,
    ratio_or_amount := detail,
    currency := if ca_type = "DIVIDEND" then some sec.currency else none }

def generate_genie_corporate_actions (num_cas : ℕ) (filter : Option String)
    (funds : List Fund) (secs : List Security)
    (un : ℕ → ℕ → ℕ) (uq : ℕ → ℕ → ℚ) : List CARow :=
  let sfc := securitiesForType filter funds secs
  if sfc.isEmpty then []
  else (List.range num_cas).map (fun i => caRow sfc i (un i) (uq i))

/-- Claim C10: in every corporate-action row the four lifecycle dates are
strictly ordered, `announcement < ex < record < pay`, with the ex date 10–30
days after the announcement, the record date 1–5 days after the ex date and
the pay date 5–20 days after the record date. -/
theorem corporate_action_dates_ordered (num_cas : ℕ) (filter : Option String)
    (funds : List Fund) (secs : List Security)
    (un : ℕ → ℕ → ℕ) (uq : ℕ → ℕ → ℚ) :
    ∀ r ∈ generate_genie_corporate_actions num_cas filter funds secs un uq,
      (r.announcement_day < r.ex_day ∧ r.ex_day < r.record_day ∧
        r.record_day < r.pay_day) ∧
      (10 ≤ r.ex_day - r.announcement_day ∧ r.ex_day - r.announcement_day ≤ 30) ∧
      (1 ≤ r.record_day - r.ex_day ∧ r.record_day - r.ex_day ≤ 5) ∧
      (5 ≤ r.pay_day - r.record_day ∧ r.pay_day - r.record_day ≤ 20) := by
  intro r hr
  unfold generate_genie_corporate_actions at hr
  by_cases hempty : (securitiesForType filter funds secs).isEmpty
  · simp [hempty] at hr
  · rw [if_neg hempty] at hr
    simp only [List.mem_map] at hr
    obtain ⟨i, _, hi⟩ := hr
    subst hi
    have h1 := randintN_le 10 30 (un i 3) (by norm_num)
    have h2 := randintN_le 1 5 (un i 4) (by norm_num)
    have h3 := randintN_le 5 20 (un i 5) (by norm_num)
    simp only [caRow]
    omega

/-- Claim C10 witness: the theorem applied at a concrete input. -/
theorem corporate_action_dates_ordered_witness :
    (((caRow [testSecurity] 0 (fun _ => 0) (fun _ => 0)).announcement_day
        < (caRow [testSecurity] 0 (fun _ => 0) (fun _ => 0)).ex_day ∧
      (caRow [testSecurity] 0 (fun _ => 0) (fun _ => 0)).ex_day
        < (caRow [testSecurity] 0 (fun _ => 0) (fun _ => 0)).record_day ∧
      (caRow [testSecurity] 0 (fun _ => 0) (fun _ => 0)).record_day
        < (caRow [testSecurity] 0 (fun _ => 0) (fun _ => 0)).pay_day) ∧
     (10 ≤ (caRow [testSecurity] 0 (fun _ => 0) (fun _ => 0)).ex_day
        - (caRow [testSecurity] 0 (fun _ => 0) (fun _ => 0)).announcement_day ∧
      (caRow [testSecurity] 0 (fun _ => 0) (fun _ => 0)).ex_day
        - (caRow [testSecurity] 0 (fun _ => 0) (fun _ => 0)).announcement_day ≤ 30) ∧
     (1 ≤ (caRow [testSecurity] 0 (fun _ => 0) (fun _ => 0)).record_day
        - (caRow [testSecurity] 0 (fun _ => 0) (fun _ => 0)).ex_day ∧
      (caRow [testSecurity] 0 (fun _ => 0) (fun _ => 0)).record_day
        - (caRow [testSecurity] 0 (fun _ => 0) (fun _ => 0)).ex_day ≤ 5) ∧
     (5 ≤ (caRow [testSecurity] 0 (fun _ => 0) (fun _ => 0)).pay_day
        - (caRow [testSecurity] 0 (fun _ => 0) (fun _ => 0)).record_day ∧
      (caRow [testSecurity] 0 (fun _ => 0) (fun _ => 0)).pay_day
        - (caRow [testSecurity] 0 (fun _ => 0) (fun _ => 0)).record_day ≤ 20)) :=
  corporate_action_dates_ordered 1 none [] [testSecurity]
    (fun _ _ => 0) (fun _ _ => 0) _ (by simp [generate_genie_corporate_actions, securitiesForType])

/-- The single financial-statement row generated by the witness run below
(one record for `testFund`, all oracle samples 0). -/
def finWitnessRow : FinRow :=
  finRow testFund
    (uniformQ (testFund.target_aum_min * (5/1000)) (testFund.target_aum_max * (15/1000)) 0 / 12)
    (fun _ => (0 : ℚ)) 0

/-- Claim C1 witness: the theorem applied to a concrete one-record run. -/
theorem financial_statements_balance_identities_witness :
    finWitnessRow.total_assets
        = finWitnessRow.total_current_assets + finWitnessRow.property_plant_equipment ∧
    finWitnessRow.total_liabilities + finWitnessRow.equity = finWitnessRow.total_assets ∧
    finWitnessRow.total_current_assets
        = finWitnessRow.cash + finWitnessRow.accounts_receivable + finWitnessRow.inventory ∧
    finWitnessRow.total_liabilities
        = finWitnessRow.total_current_liabilities + finWitnessRow.long_term_debt :=
  financial_statements_balance_identities 1 (some testFund) [] 0 0 (fun _ _ => 0)
    [finWitnessRow] rfl finWitnessRow (List.mem_singleton.mpr rfl)

/-! ## `generate_genie_fund_accounting_trial_balance` (claim C2)

The per-record random draws (`random.choice([True, False])` and the uniform
amount, taken once per chart-of-accounts line) are modelled by oracles keyed
by the record index and the account code — the account codes of the chart are
pairwise distinct and visited in a fixed order, so this is a reindexing of the
sequential Python stream. `tsel i` selects the offsetting target account of
record `i`. -/

structure TBEntry where
  report_day : ℕ
  fund_id : String
  fund_isin : String
  account_code : String
  account_name : String
  debit_balance : ℚ
  credit_balance : ℚ
  currency : String
deriving DecidableEq

def FUND_ACCOUNTING_CHART_OF_ACCOUNTS : List (String × List (String × String)) :=
  [("Assets",
    [("1001", "Cash at Bank"), ("1002", "Investments - Equities"),
     ("1003", "Investments - Fixed Income"), ("1004", "Investments - Private Equity"),
     ("1005", "Receivables - Subscriptions"), ("1006", "Receivables - Dividends"),
     ("1007", "Accrued Income"), ("1008", "Prepaid Expenses")]),
   ("Liabilities",
    [("2001", "Payables - Redemptions"), ("2002", "Payables - Expenses"),
     ("2003", "Accrued Expenses"), ("2004", "Management Fees Payable"),
     ("2005", "Performance Fees Payable")]),
   ("Equity",
    [("3001", "Fund Capital"), ("3002", "Retained Earnings"),
     ("3003", "Net Unrealized Gain/Loss")]),
   ("Income",
    [("4001", "Dividend Income"), ("4002", "Interest Income"),
     ("4003", "Realized Gain/Loss on Investments"),
     ("4004", "Unrealized Gain/Loss on Investments")]),
   ("Expenses",
    [("5001", "Management Fees"), ("5002", "Administration Fees"),
     ("5003", "Custody Fees"), ("5004", "Audit Fees"), ("5005", "Legal Fees"),
     ("5006", "Operating Expenses")])]

/-- `all_accounts`: the chart flattened over its categories. -/
def all_accounts : List (String × String) :=
  (FUND_ACCOUNTING_CHART_OF_ACCOUNTS.map Prod.snd).flatten

/-- The per-record inner loop: one debit-or-credit line per chart account,
monthly snapshot date `i * 30`. -/
def tbBlock (fund : Fund) (i : ℕ) (bdraw : String → Bool) (adraw : String → ℚ) :
    List TBEntry :=
  all_accounts.map (fun acct =>
    let is_debit := bdraw acct.1
    let amount := roundQ 2 (uniformQ 100 1000000 (adraw acct.1))
    { report_day := i * 30, fund_id := fund.fund_id, fund_isin := fund.fund_isin,
      account_code := acct.1, account_name := acct.2,
      debit_balance := if is_debit then amount else 0,
      credit_balance := if is_debit then 0 else amount,
      currency := fund.base_currency })

def debitTotal (l : List TBEntry) : ℚ := (l.map TBEntry.debit_balance).sum

def creditTotal (l : List TBEntry) : ℚ := (l.map TBEntry.credit_balance).sum

/-- The balancing adjustment's search: add `amt` to the credit balance of the
first entry whose `account_code` and `report_date` match (the Python loop
over `trial_balance_data` with a `break`). -/
def adjustCredit (code : String) (d : ℕ) (amt : ℚ) : List TBEntry → List TBEntry
  | [] => []
  | e :: rest =>
    if e.account_code = code ∧ e.report_day = d then
      { e with credit_balance := e.credit_balance + amt } :: rest
    else e :: adjustCredit code d amt rest

/-- Debit-side counterpart of `adjustCredit`. -/
def adjustDebit (code : String) (d : ℕ) (amt : ℚ) : List TBEntry → List TBEntry
  | [] => []
  | e :: rest =>
    if e.account_code = code ∧ e.report_day = d then
      { e with debit_balance := e.debit_balance + amt } :: rest
    else e :: adjustDebit code d amt rest

/-- Python's `str.startswith`, computed on the character lists. -/
def strStarts (s pat : String) : Bool := pat.data.isPrefixOf s.data

/-- Candidate offsetting accounts when debits exceed credits: equity or
liability lines (`acc[0].startswith('3') or acc[0].startswith('2')`). -/
def creditTargets : List (String × String) :=
  all_accounts.filter (fun a => strStarts a.1 "3" || strStarts a.1 "2")

/-- Candidate offsetting accounts when credits exceed debits: equity or asset
lines (`acc[0].startswith('3') or acc[0].startswith('1')`). -/
def debitTargets : List (String × String) :=
  all_accounts.filter (fun a => strStarts a.1 "3" || strStarts a.1 "1")

/-- One iteration of the `for i in range(num_records)` loop: emit the block of
account lines for snapshot `i`, then, if the block's debit and credit totals
differ, add the absolute residual to one randomly chosen offsetting line
(searching the whole accumulated list, as the Python code does). -/
def tbStep (fund : Fund) (bdraw : ℕ → String → Bool) (adraw : ℕ → String → ℚ)
    (tsel : ℕ → ℕ) (acc : List TBEntry) (i : ℕ) : List TBEntry :=
  let b := tbBlock fund i (bdraw i) (adraw i)
  let total_debits := debitTotal b
  let total_credits := creditTotal b
  let l := acc ++ b
  if total_debits = total_credits then l
  else if total_credits < total_debits then
    adjustCredit (listChoice ("", "") creditTargets (tsel i)).1 (i * 30)
      (total_debits - total_credits) l
  else
    adjustDebit (listChoice ("", "") debitTargets (tsel i)).1 (i * 30)
      (total_credits - total_debits) l

def generate_genie_fund_accounting_trial_balance (num_records : ℕ)
    (filter : Option String) (fund_info : Option Fund) (funds : List Fund)
    (fsel : ℕ) (bdraw : ℕ → String → Bool) (adraw : ℕ → String → ℚ)
    (tsel : ℕ → ℕ) : Option (List TBEntry) :=
  match resolveFund fund_info filter funds fsel with
  | none => none
  | some fund =>
    some ((List.range num_records).foldl (tbStep fund bdraw adraw tsel) [])

/-- The rows of a trial-balance table carrying a given report date. -/
def dateSlice (l : List TBEntry) (d : ℕ) : List TBEntry :=
  l.filter (fun e => e.report_day == d)

theorem tbBlock_day (fund : Fund) (i : ℕ) (bdraw : String → Bool)
    (adraw : String → ℚ) : ∀ e ∈ tbBlock fund i bdraw adraw, e.report_day = i * 30 := by
  intro e he
  simp only [tbBlock, List.mem_map] at he
  obtain ⟨a, _, ha⟩ := he
  subst ha
  rfl

theorem tbBlock_mem_code (fund : Fund) (i : ℕ) (bdraw : String → Bool)
    (adraw : String → ℚ) {p : String × String} (h : p ∈ all_accounts) :
    ∃ e ∈ tbBlock fund i bdraw adraw,
      e.account_code = p.1 ∧ e.report_day = i * 30 :=
  ⟨_, List.mem_map_of_mem _ h, rfl, rfl⟩

theorem adjustCredit_days (code : String) (d : ℕ) (amt : ℚ) (P : ℕ → Prop) :
    ∀ l : List TBEntry, (∀ e ∈ l, P e.report_day) →
      ∀ e ∈ adjustCredit code d amt l, P e.report_day := by
  intro l
  induction l with
  | nil => intro _ e he; simp [adjustCredit] at he
  | cons x rest ih =>
    intro h e he
    by_cases hc : x.account_code = code ∧ x.report_day = d
    · rw [adjustCredit, if_pos hc] at he
      rcases List.mem_cons.mp he with he1 | he1
      · subst he1; exact h x (List.mem_cons_self x rest)
      · exact h e (List.mem_cons_of_mem x he1)
    · rw [adjustCredit, if_neg hc] at he
      rcases List.mem_cons.mp he with he1 | he1
      · rw [he1]; exact h x (List.mem_cons_self x rest)
      · exact ih (fun e2 he2 => h e2 (List.mem_cons_of_mem x he2)) e he1

theorem adjustDebit_days (code : String) (d : ℕ) (amt : ℚ) (P : ℕ → Prop) :
    ∀ l : List TBEntry, (∀ e ∈ l, P e.report_day) →
      ∀ e ∈ adjustDebit code d amt l, P e.report_day := by
  intro l
  induction l with
  | nil => intro _ e he; simp [adjustDebit] at he
  | cons x rest ih =>
    intro h e he
    by_cases hc : x.account_code = code ∧ x.report_day = d
    · rw [adjustDebit, if_pos hc] at he
      rcases List.mem_cons.mp he with he1 | he1
      · subst he1; exact h x (List.mem_cons_self x rest)
      · exact h e (List.mem_cons_of_mem x he1)
    · rw [adjustDebit, if_neg hc] at he
      rcases List.mem_cons.mp he with he1 | he1
      · rw [he1]; exact h x (List.mem_cons_self x rest)
      · exact ih (fun e2 he2 => h e2 (List.mem_cons_of_mem x he2)) e he1

theorem adjustCredit_skip (code : String) (d : ℕ) (amt : ℚ) :
    ∀ (acc b : List TBEntry), (∀ e ∈ acc, e.report_day ≠ d) →
      adjustCredit code d amt (acc ++ b) = acc ++ adjustCredit code d amt b := by
  intro acc
  induction acc with
  | nil => intro b _; simp
  | cons x rest ih =>
    intro b h
    have hx : ¬(x.account_code = code ∧ x.report_day = d) := by
      intro hcc; exact h x (List.mem_cons_self x rest) hcc.2
    simp only [List.cons_append, adjustCredit, if_neg hx]
    exact congrArg (List.cons x) (ih b (fun e he => h e (List.mem_cons_of_mem x he)))

theorem adjustDebit_skip (code : String) (d : ℕ) (amt : ℚ) :
    ∀ (acc b : List TBEntry), (∀ e ∈ acc, e.report_day ≠ d) →
      adjustDebit code d amt (acc ++ b) = acc ++ adjustDebit code d amt b := by
  intro acc
  induction acc with
  | nil => intro b _; simp
  | cons x rest ih =>
    intro b h
    have hx : ¬(x.account_code = code ∧ x.report_day = d) := by
      intro hcc; exact h x (List.mem_cons_self x rest) hcc.2
    simp only [List.cons_append, adjustDebit, if_neg hx]
    exact congrArg (List.cons x) (ih b (fun e he => h e (List.mem_cons_of_mem x he)))

theorem adjustCredit_debitTotal (code : String) (d : ℕ) (amt : ℚ) :
    ∀ l : List TBEntry, debitTotal (adjustCredit code d amt l) = debitTotal l := by
  intro l
  induction l with
  | nil => rfl
  | cons x rest ih =>
    by_cases hc : x.account_code = code ∧ x.report_day = d
    · rw [adjustCredit, if_pos hc]
      rfl
    · rw [adjustCredit, if_neg hc]
      simp only [debitTotal, List.map_cons, List.sum_cons] at ih ⊢
      rw [ih]

theorem adjustDebit_creditTotal (code : String) (d : ℕ) (amt : ℚ) :
    ∀ l : List TBEntry, creditTotal (adjustDebit code d amt l) = creditTotal l := by
  intro l
  induction l with
  | nil => rfl
  | cons x rest ih =>
    by_cases hc : x.account_code = code ∧ x.report_day = d
    · rw [adjustDebit, if_pos hc]
      rfl
    · rw [adjustDebit, if_neg hc]
      simp only [creditTotal, List.map_cons, List.sum_cons] at ih ⊢
      rw [ih]

theorem adjustCredit_creditTotal (code : String) (d : ℕ) (amt : ℚ) :
    ∀ l : List TBEntry, (∃ e ∈ l, e.account_code = code ∧ e.report_day = d) →
      creditTotal (adjustCredit code d amt l) = creditTotal l + amt := by
  intro l
  induction l with
  | nil => intro h; simp at h
  | cons x rest ih =>
    intro h
    by_cases hc : x.account_code = code ∧ x.report_day = d
    · rw [adjustCredit, if_pos hc]
      simp only [creditTotal, List.map_cons, List.sum_cons]
      ring_nf
    · rw [adjustCredit, if_neg hc]
      have hrest : ∃ e ∈ rest, e.account_code = code ∧ e.report_day = d := by
        obtain ⟨e, he, hee⟩ := h
        rcases List.mem_cons.mp he with he1 | he1
        · exact absurd (he1 ▸ hee) hc
        · exact ⟨e, he1, hee⟩
      have := ih hrest
      simp only [creditTotal, List.map_cons, List.sum_cons] at this ⊢
      rw [this]
      ring

theorem adjustDebit_debitTotal (code : String) (d : ℕ) (amt : ℚ) :
    ∀ l : List TBEntry, (∃ e ∈ l, e.account_code = code ∧ e.report_day = d) →
      debitTotal (adjustDebit code d amt l) = debitTotal l + amt := by
  intro l
  induction l with
  | nil => intro h; simp at h
  | cons x rest ih =>
    intro h
    by_cases hc : x.account_code = code ∧ x.report_day = d
    · rw [adjustDebit, if_pos hc]
      simp only [debitTotal, List.map_cons, List.sum_cons]
      ring_nf
    · rw [adjustDebit, if_neg hc]
      have hrest : ∃ e ∈ rest, e.account_code = code ∧ e.report_day = d := by
        obtain ⟨e, he, hee⟩ := h
        rcases List.mem_cons.mp he with he1 | he1
        · exact absurd (he1 ▸ hee) hc
        · exact ⟨e, he1, hee⟩
      have := ih hrest
      simp only [debitTotal, List.map_cons, List.sum_cons] at this ⊢
      rw [this]
      ring

theorem dateSlice_append (a b : List TBEntry) (d : ℕ) :
    dateSlice (a ++ b) d = dateSlice a d ++ dateSlice b d := by
  simp [dateSlice]

theorem dateSlice_of_forall_eq {l : List TBEntry} {d0 : ℕ}
    (h : ∀ e ∈ l, e.report_day = d0) : dateSlice l d0 = l := by
  unfold dateSlice
  rw [List.filter_eq_self]
  intro e he
  simp [h e he]

theorem dateSlice_of_forall_ne {l : List TBEntry} {d : ℕ}
    (h : ∀ e ∈ l, e.report_day ≠ d) : dateSlice l d = [] := by
  unfold dateSlice
  rw [List.filter_eq_nil]
  intro e he
  simpa using h e he

theorem debitTotal_append (a b : List TBEntry) :
    debitTotal (a ++ b) = debitTotal a + debitTotal b := by
  simp [debitTotal]

theorem creditTotal_append (a b : List TBEntry) :
    creditTotal (a ++ b) = creditTotal a + creditTotal b := by
  simp [creditTotal]

theorem creditTargets_ne_nil : creditTargets ≠ [] := by decide

theorem debitTargets_ne_nil : debitTargets ≠ [] := by decide

theorem tbStep_eq (fund : Fund) (bdraw : ℕ → String → Bool)
    (adraw : ℕ → String → ℚ) (tsel : ℕ → ℕ) (acc : List TBEntry) (i : ℕ) :
    tbStep fund bdraw adraw tsel acc i =
      if debitTotal (tbBlock fund i (bdraw i) (adraw i))
          = creditTotal (tbBlock fund i (bdraw i) (adraw i)) then
        acc ++ tbBlock fund i (bdraw i) (adraw i)
      else if creditTotal (tbBlock fund i (bdraw i) (adraw i))
          < debitTotal (tbBlock fund i (bdraw i) (adraw i)) then
        adjustCredit (listChoice ("", "") creditTargets (tsel i)).1 (i * 30)
          (debitTotal (tbBlock fund i (bdraw i) (adraw i))
            - creditTotal (tbBlock fund i (bdraw i) (adraw i)))
          (acc ++ tbBlock fund i (bdraw i) (adraw i))
      else
        adjustDebit (listChoice ("", "") debitTargets (tsel i)).1 (i * 30)
          (creditTotal (tbBlock fund i (bdraw i) (adraw i))
            - debitTotal (tbBlock fund i (bdraw i) (adraw i)))
          (acc ++ tbBlock fund i (bdraw i) (adraw i)) := rfl

/-- The balanced-per-date invariant of the trial-balance fold, together with
the fact that all report dates seen after `n` records lie below `n * 30`. -/
theorem tb_foldl_balanced (fund : Fund) (bdraw : ℕ → String → Bool)
    (adraw : ℕ → String → ℚ) (tsel : ℕ → ℕ) :
    ∀ n : ℕ,
      (∀ e ∈ (List.range n).foldl (tbStep fund bdraw adraw tsel) [],
          e.report_day < n * 30) ∧
      (∀ d, debitTotal (dateSlice ((List.range n).foldl (tbStep fund bdraw adraw tsel) []) d)
          = creditTotal (dateSlice ((List.range n).foldl (tbStep fund bdraw adraw tsel) []) d)) := by
  intro n
  induction n with
  | zero =>
    constructor
    · intro e he; simp at he
    · intro d; rfl
  | succ n ih =>
    obtain ⟨ihday, ihbal⟩ := ih
    rw [List.range_succ, List.foldl_append, List.foldl_cons, List.foldl_nil]
    have hbday : ∀ e ∈ tbBlock fund n (bdraw n) (adraw n), e.report_day = n * 30 :=
      tbBlock_day fund n _ _
    have haccne : ∀ e ∈ (List.range n).foldl (tbStep fund bdraw adraw tsel) [],
        e.report_day ≠ n * 30 :=
      fun e he => Nat.ne_of_lt (ihday e he)
    have haccne2 : ∀ e ∈ (List.range n).foldl (tbStep fund bdraw adraw tsel) [],
        e.report_day < (n + 1) * 30 := by
      intro e he
      have := ihday e he
      omega
    rw [tbStep_eq]
    by_cases h1 : debitTotal (tbBlock fund n (bdraw n) (adraw n))
        = creditTotal (tbBlock fund n (bdraw n) (adraw n))
    · rw [if_pos h1]
      constructor
      · intro e he
        rcases List.mem_append.mp he with he1 | he1
        · exact haccne2 e he1
        · rw [hbday e he1]; omega
      · intro d
        rw [dateSlice_append, debitTotal_append, creditTotal_append]
        by_cases hd : d = n * 30
        · subst hd
          rw [dateSlice_of_forall_ne haccne, dateSlice_of_forall_eq hbday]
          simpa [debitTotal, creditTotal] using h1
        · rw [@dateSlice_of_forall_ne (tbBlock fund n (bdraw n) (adraw n)) d
            (fun e he => by rw [hbday e he]; omega)]
          simpa [debitTotal, creditTotal] using ihbal d
    · rw [if_neg h1]
      by_cases h2 : creditTotal (tbBlock fund n (bdraw n) (adraw n))
          < debitTotal (tbBlock fund n (bdraw n) (adraw n))
      · rw [if_pos h2]
        rw [adjustCredit_skip _ _ _ _ _ haccne]
        have htmem : listChoice ("", "") creditTargets (tsel n) ∈ all_accounts :=
          List.mem_of_mem_filter (listChoice_mem _ creditTargets_ne_nil _)
        have hmatch := tbBlock_mem_code fund n (bdraw n) (adraw n) htmem
        have hadjday : ∀ e ∈ adjustCredit (listChoice ("", "") creditTargets (tsel n)).1
            (n * 30)
            (debitTotal (tbBlock fund n (bdraw n) (adraw n))
              - creditTotal (tbBlock fund n (bdraw n) (adraw n)))
            (tbBlock fund n (bdraw n) (adraw n)), e.report_day = n * 30 :=
          adjustCredit_days _ _ _ (fun x => x = n * 30) _ hbday
        constructor
        · intro e he
          rcases List.mem_append.mp he with he1 | he1
          · exact haccne2 e he1
          · rw [hadjday e he1]; omega
        · intro d
          rw [dateSlice_append, debitTotal_append, creditTotal_append]
          by_cases hd : d = n * 30
          · subst hd
            rw [dateSlice_of_forall_ne haccne, dateSlice_of_forall_eq hadjday]
            rw [adjustCredit_debitTotal, adjustCredit_creditTotal _ _ _ _ hmatch]
            simp only [debitTotal, creditTotal, List.map_nil, List.sum_nil]
            ring
          · have hslice := dateSlice_of_forall_ne
              (fun e he => by rw [hadjday e he]; omega : ∀ e ∈ adjustCredit
                (listChoice ("", "") creditTargets (tsel n)).1 (n * 30)
                (debitTotal (tbBlock fund n (bdraw n) (adraw n))
                  - creditTotal (tbBlock fund n (bdraw n) (adraw n)))
                (tbBlock fund n (bdraw n) (adraw n)), e.report_day ≠ d)
            rw [hslice]
            simpa [debitTotal, creditTotal] using ihbal d
      · rw [if_neg h2]
        rw [adjustDebit_skip _ _ _ _ _ haccne]
        have htmem : listChoice ("", "") debitTargets (tsel n) ∈ all_accounts :=
          List.mem_of_mem_filter (listChoice_mem _ debitTargets_ne_nil _)
        have hmatch := tbBlock_mem_code fund n (bdraw n) (adraw n) htmem
        have hadjday : ∀ e ∈ adjustDebit (listChoice ("", "") debitTargets (tsel n)).1
            (n * 30)
            (creditTotal (tbBlock fund n (bdraw n) (adraw n))
              - debitTotal (tbBlock fund n (bdraw n) (adraw n)))
            (tbBlock fund n (bdraw n) (adraw n)), e.report_day = n * 30 :=
          adjustDebit_days _ _ _ (fun x => x = n * 30) _ hbday
        constructor
        · intro e he
          rcases List.mem_append.mp he with he1 | he1
          · exact haccne2 e he1
          · rw [hadjday e he1]; omega
        · intro d
          rw [dateSlice_append, debitTotal_append, creditTotal_append]
          by_cases hd : d = n * 30
          · subst hd
            rw [dateSlice_of_forall_ne haccne, dateSlice_of_forall_eq hadjday]
            rw [adjustDebit_creditTotal, adjustDebit_debitTotal _ _ _ _ hmatch]
            simp only [debitTotal, creditTotal, List.map_nil, List.sum_nil]
            ring
          · have hslice := dateSlice_of_forall_ne
              (fun e he => by rw [hadjday e he]; omega : ∀ e ∈ adjustDebit
                (listChoice ("", "") debitTargets (tsel n)).1 (n * 30)
                (creditTotal (tbBlock fund n (bdraw n) (adraw n))
                  - debitTotal (tbBlock fund n (bdraw n) (adraw n)))
                (tbBlock fund n (bdraw n) (adraw n)), e.report_day ≠ d)
            rw [hslice]
            simpa [debitTotal, creditTotal] using ihbal d

/-- Claim C2: in every trial-balance table produced by
`generate_genie_fund_accounting_trial_balance`, for each report date the sum
of `debit_balance` over the rows of that date equals the sum of
`credit_balance` over those rows, after the post-hoc balancing adjustment
that adds the absolute residual to one randomly chosen offsetting account
line (exact arithmetic; a raising run, modelled as `none`, produces no
table and contributes the empty slice). -/
theorem trial_balance_debits_equal_credits (num_records : ℕ)
    (filter : Option String) (fund_info : Option Fund) (funds : List Fund)
    (fsel : ℕ) (bdraw : ℕ → String → Bool) (adraw : ℕ → String → ℚ)
    (tsel : ℕ → ℕ) (d : ℕ) :
    debitTotal (dateSlice ((generate_genie_fund_accounting_trial_balance num_records
        filter fund_info funds fsel bdraw adraw tsel).getD []) d)
      = creditTotal (dateSlice ((generate_genie_fund_accounting_trial_balance num_records
        filter fund_info funds fsel bdraw adraw tsel).getD []) d) := by
  unfold generate_genie_fund_accounting_trial_balance
  cases resolveFund fund_info filter funds fsel with
  | none => rfl
  | some fund => exact (tb_foldl_balanced fund bdraw adraw tsel num_records).2 d

/-! ## Time-series machinery (claims C3, C4)

The three daily-series generators share one loop shape: for each day, for
each entity record, read the record's current value from a mutable map, emit
a row and write the value back. Crucially, the source keys each map by an
IDENTIFIER of the record, not by the record itself:
`current_prices_for_simulation[security_id]` for prices,
`initial_navs_per_share[fund_id]` / `initial_total_shares[fund_id]` for NAV,
and `current_rates[(base, quote)]` for FX — so two records sharing an
identifier share one state slot. The machinery therefore takes an explicit
key projection. `dayPass` is the inner (record) loop, `runDays` the outer
(day) loop, `walkTraj` the per-record recurrence that emerges when the keys
are pairwise distinct. -/

section TimeSeries

variable {ε κ σ : Type} [DecidableEq κ]

/-- The inner loop of a generation day: emit `(day, record, new value)` rows
in record order, reading and writing the state map at the record's key. -/
def dayPass (key : ε → κ) (F : ℕ → ε → σ → σ) (d : ℕ) :
    List ε → (κ → σ) → List (ℕ × ε × σ) × (κ → σ)
  | [], st => ([], st)
  | e :: es, st =>
    let v := F d e (st (key e))
    let p := dayPass key F d es (Function.update st (key e) v)
    ((d, e, v) :: p.1, p.2)

/-- The outer loop over `num_days` days. -/
def runDays (key : ε → κ) (F : ℕ → ε → σ → σ) (es : List ε) (st : κ → σ) :
    ℕ → List (ℕ × ε × σ) × (κ → σ)
  | 0 => ([], st)
  | n + 1 =>
    let p := runDays key F es st n
    let q := dayPass key F n es p.2
    (p.1 ++ q.1, q.2)

/-- The per-record trajectory induced by the step function (which describes
the generated series only when the records' keys are pairwise distinct). -/
def walkTraj (key : ε → κ) (F : ℕ → ε → σ → σ) (st : κ → σ) (e : ε) : ℕ → σ
  | 0 => st (key e)
  | d + 1 => F d e (walkTraj key F st e d)

theorem dayPass_val (key : ε → κ) (F : ℕ → ε → σ → σ) (d : ℕ) :
    ∀ (es : List ε) (st : κ → σ) (r : ℕ × ε × σ), r ∈ (dayPass key F d es st).1 →
      ∃ e p, r = (d, e, F d e p) := by
  intro es
  induction es with
  | nil => intro st r hr; simp [dayPass] at hr
  | cons e es ih =>
    intro st r hr
    simp only [dayPass, List.mem_cons] at hr
    rcases hr with hr | hr
    · exact ⟨e, st (key e), hr⟩
    · exact ih _ r hr

theorem runDays_val (key : ε → κ) (F : ℕ → ε → σ → σ) (es : List ε) (st : κ → σ) :
    ∀ (n : ℕ) (r : ℕ × ε × σ), r ∈ (runDays key F es st n).1 →
      ∃ d e p, r = (d, e, F d e p) := by
  intro n
  induction n with
  | zero => intro r hr; simp [runDays] at hr
  | succ n ih =>
    intro r hr
    simp only [runDays, List.mem_append] at hr
    rcases hr with hr | hr
    · exact ih r hr
    · obtain ⟨e, p, hp⟩ := dayPass_val key F n es _ r hr
      exact ⟨n, e, p, hp⟩

theorem dayPass_state_not_mem (key : ε → κ) (F : ℕ → ε → σ → σ) (d : ℕ) :
    ∀ (es : List ε) (st : κ → σ) (k1 : κ), k1 ∉ es.map key →
      (dayPass key F d es st).2 k1 = st k1 := by
  intro es
  induction es with
  | nil => intro st k1 _; rfl
  | cons e es ih =>
    intro st k1 h1
    simp only [List.map_cons, List.mem_cons] at h1
    push_neg at h1
    obtain ⟨hne, hmem⟩ := h1
    simp only [dayPass]
    rw [ih _ k1 hmem, Function.update_noteq hne]

theorem dayPass_rows (key : ε → κ) (F : ℕ → ε → σ → σ) (d : ℕ) :
    ∀ (es : List ε) (st : κ → σ), (es.map key).Nodup →
      (dayPass key F d es st).1 = es.map (fun e => (d, e, F d e (st (key e)))) := by
  intro es
  induction es with
  | nil => intro st _; rfl
  | cons e es ih =>
    intro st hnd
    simp only [List.map_cons] at hnd
    obtain ⟨hnmem, hnd2⟩ := List.nodup_cons.mp hnd
    simp only [dayPass, List.map_cons, List.cons.injEq, true_and]
    rw [ih _ hnd2]
    exact List.map_congr_left (fun e1 he1 => by
      rw [Function.update_noteq
        (fun hc => hnmem (by rw [← hc]; exact List.mem_map_of_mem key he1))])

theorem dayPass_state_mem (key : ε → κ) (F : ℕ → ε → σ → σ) (d : ℕ) :
    ∀ (es : List ε) (st : κ → σ), (es.map key).Nodup →
      ∀ e ∈ es, (dayPass key F d es st).2 (key e) = F d e (st (key e)) := by
  intro es
  induction es with
  | nil => intro st _ e he; simp at he
  | cons e es ih =>
    intro st hnd e1 he1
    simp only [List.map_cons] at hnd
    obtain ⟨hnmem, hnd2⟩ := List.nodup_cons.mp hnd
    rcases List.mem_cons.mp he1 with he2 | he2
    · rw [he2]
      simp only [dayPass]
      rw [dayPass_state_not_mem key F d es _ (key e) hnmem, Function.update_same]
    · have hne : key e1 ≠ key e :=
        fun hc => hnmem (by rw [← hc]; exact List.mem_map_of_mem key he2)
      simp only [dayPass]
      rw [ih _ hnd2 e1 he2, Function.update_noteq hne]

theorem runDays_state (key : ε → κ) (F : ℕ → ε → σ → σ) (es : List ε) (st : κ → σ)
    (hnd : (es.map key).Nodup) : ∀ (n : ℕ), ∀ e ∈ es,
      (runDays key F es st n).2 (key e) = walkTraj key F st e n := by
  intro n
  induction n with
  | zero => intro e _; rfl
  | succ n ih =>
    intro e he
    simp only [runDays]
    rw [dayPass_state_mem key F n es _ hnd e he, ih e he]
    rfl

theorem runDays_rows (key : ε → κ) (F : ℕ → ε → σ → σ) (es : List ε) (st : κ → σ)
    (hnd : (es.map key).Nodup) : ∀ (n : ℕ),
      (runDays key F es st n).1
        = ((List.range n).map
            (fun d => es.map (fun e => (d, e, walkTraj key F st e (d + 1))))).flatten := by
  intro n
  induction n with
  | zero => rfl
  | succ n ih =>
    simp only [runDays]
    rw [ih, dayPass_rows key F n es _ hnd, List.range_succ, List.map_append,
      List.flatten_append]
    simp only [List.map_cons, List.map_nil, List.flatten_cons, List.flatten_nil,
      List.append_nil]
    congr 1
    exact List.map_congr_left (fun e he => by
      rw [runDays_state key F es st hnd n e he]
      rfl)

end TimeSeries

/-- Auxiliary: a join of all-empty blocks is empty. -/
theorem join_of_nil_maps {α β : Type} (l : List α) :
    (l.map (fun _ => ([] : List β))).flatten = [] := by
  induction l with
  | nil => rfl
  | cons x xs ih => simpa using ih

/-! ## The three daily-series generators

The per-day drift `(1 + avg_annual_return_pct) ** (1/252) - 1` is computed by
floating-point exponentiation, which has no exact rational value; it is
supplied to the model as an opaque function `dailyRet` of the annual return.
The gaussian draws `random.gauss(0, daily_vol)` are supplied directly by the
oracle `g` (their distribution is outside the embedding). -/

structure PriceRow where
  price_day : ℕ
  security_id : String
  isin : String
  currency : String
  closing_price : ℚ
  fund_id : String
deriving DecidableEq, Inhabited

/-- `fund_type_of_sec`: the fund type of the security's fund, defaulting to
"Traditional UCITS" when the fund is not in the master table. -/
def priceFundType (funds : List Fund) (sec : Security) : String :=
  match funds.filter (fun f => f.fund_id == sec.fund_id) with
  | [] => "Traditional UCITS"
  | f :: _ => f.fund_type

/-- `(daily_volatility_pct, avg_annual_return_pct)` for a security, with the
dictionary-lookup defaults `(0.01, 0.05)` of the price generator. -/
def priceVolRet (funds : List Fund) (sec : Security) : ℚ × ℚ :=
  match fundTypesGet (some (priceFundType funds sec)) with
  | some cfg => (cfg.daily_volatility_pct, cfg.avg_annual_return_pct)
  | none => (1/100, 5/100)

/-- One price step: `new_price = round(current_price * (1 + avg_daily_return
+ gauss), 2)`, floored at `0.01`. -/
def priceStepF (drift g p : ℚ) : ℚ :=
  let np := roundQ 2 (p * (1 + drift + g))
  if np < 1/100 then 1/100 else np

/-- The source's `current_prices_for_simulation` dict is keyed by the
security's `security_id` string (lines 573, 579, 603), so two securities
sharing an id share one state slot; the initial dict comprehension draws
`uniform(10, 1000)` once per id. -/
def generate_genie_daily_security_prices (num_days : ℕ) (filter : Option String)
    (funds : List Fund) (secs : List Security) (dailyRet : ℚ → ℚ)
    (g : ℕ → Security → ℚ) (initd : String → ℚ) : List PriceRow :=
  let stp := securitiesForType filter funds secs
  if stp.isEmpty then []
  else
    ((runDays Security.security_id
        (fun d sec p => priceStepF (dailyRet (priceVolRet funds sec).2) (g d sec) p)
        stp (fun sid => uniformQ 10 1000 (initd sid)) num_days).1).map
      (fun r => { price_day := r.1, security_id := r.2.1.security_id,
                  isin := r.2.1.isin, currency := r.2.1.currency,
                  closing_price := r.2.2, fund_id := r.2.1.fund_id })

structure NavRow where
  nav_day : ℕ
  fund_id : String
  fund_isin : String
  nav_per_share : ℚ
  total_nav : ℚ
  total_shares_outstanding : ℚ
  currency : String
deriving DecidableEq, Inhabited

/-- `(daily_volatility_pct, avg_annual_return_pct)` for a fund, with the
dictionary-lookup defaults `(0.005, 0.05)` of the NAV generator. -/
def navVolRet (f : Fund) : ℚ × ℚ :=
  match fundTypesGet (some f.fund_type) with
  | some cfg => (cfg.daily_volatility_pct, cfg.avg_annual_return_pct)
  | none => (5/1000, 5/100)

/-- One NAV step on the state `(nav_per_share, total_shares)`:
`new_nav = round(nav * (1 + drift + gauss), 4)` floored at `0.01`;
`new_shares = round(shares * (1 + uniform(-0.001, 0.001)), 0)` floored at
`10000`. -/
def navStepF (drift g us : ℚ) (s : ℚ × ℚ) : ℚ × ℚ :=
  let nav1 := roundQ 4 (s.1 * (1 + drift + g))
  let nav2 := if nav1 < 1/100 then 1/100 else nav1
  let sh1 := roundQ 0 (s.2 * (1 + uniformQ (-1/1000) (1/1000) us))
  let sh2 := if sh1 < 10000 then 10000 else sh1
  (nav2, sh2)

/-- The fund-type filter prologue of the NAV generator. -/
def fundsForType (filter : Option String) (funds : List Fund) : List Fund :=
  match filter with
  | some t => funds.filter (fun f => f.fund_type == t)
  | none => funds

/-- The source's `initial_navs_per_share` and `initial_total_shares` dicts
are keyed by the fund's `fund_id` string (lines 627-628, 656-657), so two
funds sharing an id share one state slot. -/
def generate_genie_fund_daily_nav (num_days : ℕ) (filter : Option String)
    (funds : List Fund) (dailyRet : ℚ → ℚ) (g us : ℕ → Fund → ℚ)
    (i1 i2 : String → ℚ) : List NavRow :=
  let ftp := fundsForType filter funds
  if ftp.isEmpty then []
  else
    ((runDays Fund.fund_id
        (fun d f s => navStepF (dailyRet (navVolRet f).2) (g d f) (us d f) s)
        ftp (fun fid => (uniformQ 50 150 (i1 fid), uniformQ 1000000 10000000 (i2 fid)))
        num_days).1).map
      (fun r => { nav_day := r.1, fund_id := r.2.1.fund_id,
                  fund_isin := r.2.1.fund_isin, nav_per_share := r.2.2.1,
                  total_nav := roundQ 2 (r.2.2.1 * r.2.2.2),
                  total_shares_outstanding := r.2.2.2,
                  currency := r.2.1.base_currency })

structure FxRow where
  rate_day : ℕ
  base_currency : String
  quote_currency : String
  exchange_rate : ℚ
deriving DecidableEq, Inhabited

def currencyPairs : List (String × String) :=
  [("USD", "EUR"), ("USD", "GBP"), ("USD", "JPY"), ("EUR", "GBP"),
   ("EUR", "CHF"), ("GBP", "USD"), ("JPY", "USD"), ("CAD", "USD")]

/-- The FX day noise: `random.uniform(-0.005, 0.005)` given its unit
sample. -/
def fxNoise (u : ℚ) : ℚ := uniformQ (-5/1000) (5/1000) u

/-- One FX step: `new_rate = round(rate * (1 + uniform(-0.005, 0.005)), 4)`,
reset to `0.0001` when non-positive. -/
def fxStepF (u r : ℚ) : ℚ :=
  let nr := roundQ 4 (r * (1 + fxNoise u))
  if nr ≤ 0 then 1/10000 else nr

def generate_genie_fx_rates (num_days : ℕ) (u : ℕ → String × String → ℚ)
    (initd : String × String → ℚ) : List FxRow :=
  ((runDays (fun pr => pr) (fun d pr r => fxStepF (u d pr) r) currencyPairs
      (fun pr => uniformQ (7/10) (15/10) (initd pr)) num_days).1).map
    (fun r => { rate_day := r.1, base_currency := r.2.1.1,
                quote_currency := r.2.1.2, exchange_rate := r.2.2 })

/-! ## The spec's random-walk template (for claim C3)

Written from the spec's words, to be compared with the code's steps:
"`next_value = round(prev_value * (1 + drift + gaussian_noise(0, volatility)),
precision)`, with a floor clamp to keep values positive; state (previous
value) is threaded per-entity across the day loop." -/

/-- The spec's step: round, then clamp from below at the floor `fl`. -/
def specRandomWalkStep (fl : ℚ) (prec : ℕ) (drift noise prev : ℚ) : ℚ :=
  max fl (roundQ prec (prev * (1 + drift + noise)))

/-- The spec's per-entity walk: day `0` is the initial value, each later day
applies the step to the previous day's value. -/
def specWalk (fl : ℚ) (prec : ℕ) (drift : ℚ) (noise : ℕ → ℚ) (init : ℚ) : ℕ → ℚ
  | 0 => init
  | d + 1 => specRandomWalkStep fl prec drift (noise d) (specWalk fl prec drift noise init d)

theorem priceStepF_eq_spec (drift g p : ℚ) :
    priceStepF drift g p = specRandomWalkStep (1/100) 2 drift g p := by
  unfold priceStepF specRandomWalkStep
  rcases lt_or_ge (roundQ 2 (p * (1 + drift + g))) (1/100) with h | h
  · rw [if_pos h, max_eq_left (le_of_lt h)]
  · rw [if_neg (not_lt.mpr h), max_eq_right h]

theorem navStepF_fst_eq_spec (drift g us : ℚ) (s : ℚ × ℚ) :
    (navStepF drift g us s).1 = specRandomWalkStep (1/100) 4 drift g s.1 := by
  have hfst : (navStepF drift g us s).1
      = if roundQ 4 (s.1 * (1 + drift + g)) < 1/100 then 1/100
        else roundQ 4 (s.1 * (1 + drift + g)) := rfl
  rw [hfst]
  unfold specRandomWalkStep
  rcases lt_or_ge (roundQ 4 (s.1 * (1 + drift + g))) (1/100) with h | h
  · rw [if_pos h, max_eq_left (le_of_lt h)]
  · rw [if_neg (not_lt.mpr h), max_eq_right h]

/-- A positive `p`-decimal rounded value is at least one unit in the last
decimal place. -/
theorem roundQ_pos_le (p : ℕ) (x : ℚ) (h : 0 < roundQ p x) :
    1 / (10 : ℚ) ^ p ≤ roundQ p x := by
  unfold roundQ at *
  have hp : (0 : ℚ) < 10 ^ p := by positivity
  have hk : (0 : ℚ) < ((round (x * 10 ^ p) : ℤ) : ℚ) := by
    rcases div_pos_iff.mp h with ⟨h1, _⟩ | ⟨_, h2⟩
    · exact h1
    · linarith
  have hk2 : (0 : ℤ) < round (x * 10 ^ p) := by exact_mod_cast hk
  have hk3 : (1 : ℤ) ≤ round (x * 10 ^ p) := hk2
  have hk4 : (1 : ℚ) ≤ ((round (x * 10 ^ p) : ℤ) : ℚ) := by exact_mod_cast hk3
  exact (div_le_div_right hp).mpr hk4

theorem fxStepF_eq_spec (u r : ℚ) :
    fxStepF u r = specRandomWalkStep (1/10000) 4 0 (fxNoise u) r := by
  unfold fxStepF specRandomWalkStep
  have harg : r * (1 + fxNoise u) = r * (1 + 0 + fxNoise u) := by ring
  rw [harg]
  rcases le_or_lt (roundQ 4 (r * (1 + 0 + fxNoise u))) 0 with h | h
  · rw [if_pos h]
    have hle : roundQ 4 (r * (1 + 0 + fxNoise u)) ≤ 1/10000 :=
      le_trans h (by norm_num)
    rw [max_eq_left hle]
  · rw [if_neg (not_le.mpr h)]
    have h3 := roundQ_pos_le 4 (r * (1 + 0 + fxNoise u)) h
    norm_num at h3
    rw [harg] at h3
    rw [max_eq_right h3]

/-! ## Claim C4: positivity of the three daily series -/

theorem specRandomWalkStep_pos (fl : ℚ) (prec : ℕ) (drift noise prev : ℚ)
    (h : 0 < fl) : 0 < specRandomWalkStep fl prec drift noise prev :=
  lt_of_lt_of_le h (le_max_left _ _)

theorem priceStepF_pos (drift g p : ℚ) : 0 < priceStepF drift g p := by
  rw [priceStepF_eq_spec]
  exact specRandomWalkStep_pos _ _ _ _ _ (by norm_num)

theorem navStepF_fst_pos (drift g us : ℚ) (s : ℚ × ℚ) : 0 < (navStepF drift g us s).1 := by
  rw [navStepF_fst_eq_spec]
  exact specRandomWalkStep_pos _ _ _ _ _ (by norm_num)

theorem fxStepF_pos (u r : ℚ) : 0 < fxStepF u r := by
  rw [fxStepF_eq_spec]
  exact specRandomWalkStep_pos _ _ _ _ _ (by norm_num)

/-- Claim C4: every `closing_price` of the daily security prices, every
`nav_per_share` of the daily NAV series and every `exchange_rate` of the FX
rate series is strictly positive, for every number of days and every
fund-type filter — each step's result is floor-clamped to a positive
minimum. -/
theorem time_series_values_positive :
    (∀ (num_days : ℕ) (filter : Option String) (funds : List Fund)
        (secs : List Security) (dailyRet : ℚ → ℚ) (g : ℕ → Security → ℚ)
        (initd : String → ℚ),
      ∀ r ∈ generate_genie_daily_security_prices num_days filter funds secs dailyRet g initd,
        0 < r.closing_price) ∧
    (∀ (num_days : ℕ) (filter : Option String) (funds : List Fund)
        (dailyRet : ℚ → ℚ) (g us : ℕ → Fund → ℚ) (i1 i2 : String → ℚ),
      ∀ r ∈ generate_genie_fund_daily_nav num_days filter funds dailyRet g us i1 i2,
        0 < r.nav_per_share) ∧
    (∀ (num_days : ℕ) (u : ℕ → String × String → ℚ) (initd : String × String → ℚ),
      ∀ r ∈ generate_genie_fx_rates num_days u initd, 0 < r.exchange_rate) := by
  refine ⟨?_, ?_, ?_⟩
  · intro num_days filter funds secs dailyRet g initd r hr
    unfold generate_genie_daily_security_prices at hr
    by_cases hempty : (securitiesForType filter funds secs).isEmpty
    · simp [hempty] at hr
    · rw [if_neg hempty] at hr
      simp only [List.mem_map] at hr
      obtain ⟨rr, hrr, hrf⟩ := hr
      obtain ⟨d, e, p, hde⟩ := runDays_val _ _ _ _ num_days rr hrr
      subst hrf
      subst hde
      exact priceStepF_pos _ _ _
  · intro num_days filter funds dailyRet g us i1 i2 r hr
    unfold generate_genie_fund_daily_nav at hr
    by_cases hempty : (fundsForType filter funds).isEmpty
    · simp [hempty] at hr
    · rw [if_neg hempty] at hr
      simp only [List.mem_map] at hr
      obtain ⟨rr, hrr, hrf⟩ := hr
      obtain ⟨d, e, p, hde⟩ := runDays_val _ _ _ _ num_days rr hrr
      subst hrf
      subst hde
      exact navStepF_fst_pos (dailyRet (navVolRet e).2) (g d e) (us d e) p
  · intro num_days u initd r hr
    unfold generate_genie_fx_rates at hr
    simp only [List.mem_map] at hr
    obtain ⟨rr, hrr, hrf⟩ := hr
    obtain ⟨d, e, p, hde⟩ := runDays_val _ _ _ _ num_days rr hrr
    subst hrf
    subst hde
    exact fxStepF_pos _ _

theorem listHeadI_mem {α : Type} [Inhabited α] :
    ∀ {l : List α}, l ≠ [] → l.headI ∈ l
  | [], h => absurd rfl h
  | a :: l, _ => List.mem_cons_self a l

/-- Claim C4 witness: the theorem applied to concrete one-day runs of the
three generators. -/
theorem time_series_values_positive_witness :
    0 < ((generate_genie_daily_security_prices 1 none [testFund] [testSecurity]
        (fun _ => 0) (fun _ _ => 0) (fun _ => 0)).headI).closing_price ∧
    0 < ((generate_genie_fund_daily_nav 1 none [testFund]
        (fun _ => 0) (fun _ _ => 0) (fun _ _ => 0) (fun _ => 0) (fun _ => 0)).headI).nav_per_share ∧
    0 < ((generate_genie_fx_rates 1 (fun _ _ => 0) (fun _ => 0)).headI).exchange_rate :=
  ⟨time_series_values_positive.1 1 none [testFund] [testSecurity]
      (fun _ => 0) (fun _ _ => 0) (fun _ => 0) _ (listHeadI_mem (by
        simp [generate_genie_daily_security_prices, securitiesForType, runDays, dayPass])),
   time_series_values_positive.2.1 1 none [testFund]
      (fun _ => 0) (fun _ _ => 0) (fun _ _ => 0) (fun _ => 0) (fun _ => 0) _ (listHeadI_mem (by
        simp [generate_genie_fund_daily_nav, fundsForType, runDays, dayPass])),
   time_series_values_positive.2.2 1 (fun _ _ => 0) (fun _ => 0) _ (listHeadI_mem (by
        simp [generate_genie_fx_rates, currencyPairs, runDays, dayPass]))⟩

/-! ## Claim C3: the random-walk recurrences -/

theorem roundQ_mono (p : ℕ) {x y : ℚ} (h : x ≤ y) : roundQ p x ≤ roundQ p y := by
  unfold roundQ
  have hp : (0 : ℚ) < 10 ^ p := by positivity
  have h2 : round (x * 10 ^ p) ≤ round (y * 10 ^ p) := by
    rw [round_eq, round_eq]
    exact Int.floor_le_floor (by nlinarith)
  have h3 : ((round (x * 10 ^ p) : ℤ) : ℚ) ≤ ((round (y * 10 ^ p) : ℤ) : ℚ) := by
    exact_mod_cast h2
  exact (div_le_div_right hp).mpr h3

theorem roundQ_int (p : ℕ) (n : ℤ) (x : ℚ) (hx : x * 10 ^ p = (n : ℚ)) :
    roundQ p x = (n : ℚ) / 10 ^ p := by
  unfold roundQ
  rw [hx, round_intCast]

theorem walkTraj_price (funds : List Fund) (dailyRet : ℚ → ℚ)
    (g : ℕ → Security → ℚ) (initd : String → ℚ) (sec : Security) :
    ∀ n, walkTraj Security.security_id
        (fun d sec2 p => priceStepF (dailyRet (priceVolRet funds sec2).2) (g d sec2) p)
        (fun sid => uniformQ 10 1000 (initd sid)) sec n
      = specWalk (1/100) 2 (dailyRet (priceVolRet funds sec).2) (fun d2 => g d2 sec)
          (uniformQ 10 1000 (initd sec.security_id)) n := by
  intro n
  induction n with
  | zero => rfl
  | succ n ih =>
    simp only [walkTraj, specWalk]
    rw [ih, priceStepF_eq_spec]

theorem walkTraj_nav_fst (dailyRet : ℚ → ℚ) (g us : ℕ → Fund → ℚ)
    (i1 i2 : String → ℚ) (f : Fund) :
    ∀ n, (walkTraj Fund.fund_id
        (fun d f2 s => navStepF (dailyRet (navVolRet f2).2) (g d f2) (us d f2) s)
        (fun fid => (uniformQ 50 150 (i1 fid), uniformQ 1000000 10000000 (i2 fid))) f n).1
      = specWalk (1/100) 4 (dailyRet (navVolRet f).2) (fun d2 => g d2 f)
          (uniformQ 50 150 (i1 f.fund_id)) n := by
  intro n
  induction n with
  | zero => rfl
  | succ n ih =>
    simp only [walkTraj, specWalk]
    rw [navStepF_fst_eq_spec, ih]

theorem walkTraj_fx (u : ℕ → String × String → ℚ) (initd : String × String → ℚ)
    (pr : String × String) :
    ∀ n, walkTraj (fun pr2 => pr2) (fun d pr2 r => fxStepF (u d pr2) r)
        (fun pr2 => uniformQ (7/10) (15/10) (initd pr2)) pr n
      = specWalk (1/10000) 4 0 (fun d2 => fxNoise (u d2 pr))
          (uniformQ (7/10) (15/10) (initd pr)) n := by
  intro n
  induction n with
  | zero => rfl
  | succ n ih =>
    simp only [walkTraj, specWalk]
    rw [fxStepF_eq_spec, ih]

theorem prices_eq_specWalk (num_days : ℕ) (filter : Option String)
    (funds : List Fund) (secs : List Security) (dailyRet : ℚ → ℚ)
    (g : ℕ → Security → ℚ) (initd : String → ℚ)
    (hnd : ((securitiesForType filter funds secs).map Security.security_id).Nodup) :
    generate_genie_daily_security_prices num_days filter funds secs dailyRet g initd
      = ((List.range num_days).map (fun d => (securitiesForType filter funds secs).map
          (fun sec => ({ price_day := d, security_id := sec.security_id,
                         isin := sec.isin, currency := sec.currency,
                         closing_price := specWalk (1/100) 2 (dailyRet (priceVolRet funds sec).2)
                           (fun d2 => g d2 sec) (uniformQ 10 1000 (initd sec.security_id)) (d + 1),
                         fund_id := sec.fund_id } : PriceRow)))).flatten := by
  unfold generate_genie_daily_security_prices
  by_cases hempty : (securitiesForType filter funds secs).isEmpty
  · rw [if_pos hempty]
    rw [List.isEmpty_iff.mp hempty]
    simp only [List.map_nil]
    exact (join_of_nil_maps _).symm
  · rw [if_neg hempty]
    rw [runDays_rows _ _ _ _ hnd num_days, List.map_flatten, List.map_map]
    congr 1
    refine List.map_congr_left (fun d _ => ?_)
    simp only [Function.comp, List.map_map]
    refine List.map_congr_left (fun sec _ => ?_)
    simp only [Function.comp]
    rw [walkTraj_price]

theorem nav_eq_specWalk (num_days : ℕ) (filter : Option String)
    (funds : List Fund) (dailyRet : ℚ → ℚ) (g us : ℕ → Fund → ℚ)
    (i1 i2 : String → ℚ)
    (hnd : ((fundsForType filter funds).map Fund.fund_id).Nodup) :
    (generate_genie_fund_daily_nav num_days filter funds dailyRet g us i1 i2).map
        (fun r => (r.nav_day, r.fund_id, r.nav_per_share))
      = ((List.range num_days).map (fun d => (fundsForType filter funds).map
          (fun f => (d, f.fund_id, specWalk (1/100) 4 (dailyRet (navVolRet f).2)
            (fun d2 => g d2 f) (uniformQ 50 150 (i1 f.fund_id)) (d + 1))))).flatten := by
  unfold generate_genie_fund_daily_nav
  by_cases hempty : (fundsForType filter funds).isEmpty
  · rw [if_pos hempty]
    rw [List.isEmpty_iff.mp hempty]
    simp only [List.map_nil]
    exact (join_of_nil_maps _).symm
  · rw [if_neg hempty]
    rw [List.map_map, runDays_rows _ _ _ _ hnd num_days, List.map_flatten, List.map_map]
    congr 1
    refine List.map_congr_left (fun d _ => ?_)
    simp only [Function.comp, List.map_map]
    refine List.map_congr_left (fun f _ => ?_)
    simp only [Function.comp]
    rw [walkTraj_nav_fst]

theorem fx_eq_specWalk (num_days : ℕ) (u : ℕ → String × String → ℚ)
    (initd : String × String → ℚ) :
    generate_genie_fx_rates num_days u initd
      = ((List.range num_days).map (fun d => currencyPairs.map
          (fun pr => ({ rate_day := d, base_currency := pr.1, quote_currency := pr.2,
                        exchange_rate := specWalk (1/10000) 4 0 (fun d2 => fxNoise (u d2 pr))
                          (uniformQ (7/10) (15/10) (initd pr)) (d + 1) } : FxRow)))).flatten := by
  unfold generate_genie_fx_rates
  have hnd : (currencyPairs.map (fun pr => pr)).Nodup := by decide
  rw [runDays_rows _ _ _ _ hnd num_days, List.map_flatten, List.map_map]
  congr 1
  refine List.map_congr_left (fun d _ => ?_)
  simp only [Function.comp, List.map_map]
  refine List.map_congr_left (fun pr _ => ?_)
  simp only [Function.comp]
  rw [walkTraj_fx]

/-- Claim C3 (counterexample): the FX generator's noise is NOT
`gaussian_noise(0, volatility)`. Its day factor is
`1 + random.uniform(-0.005, 0.005)`, so its one-day step from rate `1` is the
spec's template step at a noise value confined to `[-0.005, 0.005]`; a
gaussian draw of `1/50 = 0.02` (inside the support of every gaussian) would
produce `round(1 * (1 + 0 + 0.02), 4) = 1.02`, a value the embedded FX step
can never return from rate `1`, whatever the underlying unit sample. -/
theorem fx_gaussian_noise_counterexample :
    ¬ ∃ u1 : ℚ, 0 ≤ u1 ∧ u1 ≤ 1 ∧
      fxStepF u1 1 = specRandomWalkStep (1/10000) 4 0 (1/50) 1 := by
  rintro ⟨u1, h0, h1, heq⟩
  rw [fxStepF_eq_spec] at heq
  unfold specRandomWalkStep at heq
  have hb : fxNoise u1 ≤ 1/200 := by
    unfold fxNoise uniformQ
    linarith
  have harg : (1 : ℚ) * (1 + 0 + fxNoise u1) ≤ 201/200 := by linarith
  have hr201 : roundQ 4 ((201 : ℚ)/200) = (10050 : ℤ) / ((10 : ℚ) ^ 4) := by
    refine roundQ_int 4 10050 _ ?_
    norm_num
  have hr1 : roundQ 4 ((1 : ℚ) * (1 + 0 + fxNoise u1)) ≤ 201/200 := by
    have hm := roundQ_mono 4 harg
    rw [hr201] at hm
    rw [show ((10050 : ℤ) : ℚ) / ((10 : ℚ) ^ 4) = 201/200 by norm_num] at hm
    exact hm
  have hr2 : roundQ 4 ((1 : ℚ) * (1 + 0 + 1/50)) = 51/50 := by
    have := roundQ_int 4 10200 ((1 : ℚ) * (1 + 0 + 1/50)) (by norm_num)
    rw [this]
    norm_num
  rw [hr2] at heq
  rw [max_eq_right (by norm_num : (1 : ℚ)/10000 ≤ 51/50)] at heq
  have hmax : (1 : ℚ)/10000 ⊔ roundQ 4 ((1 : ℚ) * (1 + 0 + fxNoise u1)) ≤ 201/200 :=
    max_le (by norm_num) hr1
  rw [heq] at hmax
  norm_num at hmax

/-- Claim C3 (amended): the daily security-price and daily NAV generators
compute every day's value by the spec's recurrence
`next = round(prev * (1 + drift + gauss), precision)` floor-clamped at `0.01`
(precision 2 for prices, 4 for NAV), with the previous value threaded across
the day loop in a state dict keyed by `security_id` / `fund_id` — so the
walks are per security and per fund exactly when those identifiers are
pairwise distinct, the hypothesis under which the closed-form recurrence
below holds — but the FX generator, while of the same clamped-round
random-walk shape (precision 4, positive reset value `0.0001`, zero drift,
state dict keyed by the currency pair itself, which is duplicate-free), draws
its noise from `uniform(-0.005, 0.005)`, not from a gaussian: its noise
always lies in `[-1/200, 1/200]`. -/
theorem time_series_random_walk_recurrence :
    (∀ (num_days : ℕ) (filter : Option String) (funds : List Fund)
        (secs : List Security) (dailyRet : ℚ → ℚ) (g : ℕ → Security → ℚ)
        (initd : String → ℚ),
        ((securitiesForType filter funds secs).map Security.security_id).Nodup →
      generate_genie_daily_security_prices num_days filter funds secs dailyRet g initd
        = ((List.range num_days).map (fun d => (securitiesForType filter funds secs).map
            (fun sec => ({ price_day := d, security_id := sec.security_id,
                           isin := sec.isin, currency := sec.currency,
                           closing_price := specWalk (1/100) 2 (dailyRet (priceVolRet funds sec).2)
                             (fun d2 => g d2 sec) (uniformQ 10 1000 (initd sec.security_id)) (d + 1),
                           fund_id := sec.fund_id } : PriceRow)))).flatten) ∧
    (∀ (num_days : ℕ) (filter : Option String) (funds : List Fund)
        (dailyRet : ℚ → ℚ) (g us : ℕ → Fund → ℚ) (i1 i2 : String → ℚ),
        ((fundsForType filter funds).map Fund.fund_id).Nodup →
      (generate_genie_fund_daily_nav num_days filter funds dailyRet g us i1 i2).map
          (fun r => (r.nav_day, r.fund_id, r.nav_per_share))
        = ((List.range num_days).map (fun d => (fundsForType filter funds).map
            (fun f => (d, f.fund_id, specWalk (1/100) 4 (dailyRet (navVolRet f).2)
              (fun d2 => g d2 f) (uniformQ 50 150 (i1 f.fund_id)) (d + 1))))).flatten) ∧
    (∀ (num_days : ℕ) (u : ℕ → String × String → ℚ)
        (initd : String × String → ℚ),
      generate_genie_fx_rates num_days u initd
        = ((List.range num_days).map (fun d => currencyPairs.map
            (fun pr => ({ rate_day := d, base_currency := pr.1,
                          quote_currency := pr.2,
                          exchange_rate := specWalk (1/10000) 4 0 (fun d2 => fxNoise (u d2 pr))
                            (uniformQ (7/10) (15/10) (initd pr)) (d + 1) } : FxRow)))).flatten) ∧
    (∀ u1 : ℚ, 0 ≤ u1 → u1 ≤ 1 → -(1/200) ≤ fxNoise u1 ∧ fxNoise u1 ≤ 1/200) :=
  ⟨prices_eq_specWalk,
   nav_eq_specWalk,
   fx_eq_specWalk,
   fun u1 h0 h1 => by
     unfold fxNoise uniformQ
     constructor <;> linarith⟩

/-- Claim C3 witness: the amended statement applied to concrete one-day runs
(one security, one fund, all oracle samples `0`; FX noise bound at sample
`1/2`). -/
theorem time_series_random_walk_recurrence_witness :
    (generate_genie_daily_security_prices 1 none [testFund] [testSecurity]
        (fun _ => 0) (fun _ _ => 0) (fun _ => 0)
      = ((List.range 1).map (fun d => (securitiesForType none [testFund] [testSecurity]).map
          (fun sec => ({ price_day := d, security_id := sec.security_id,
                         isin := sec.isin, currency := sec.currency,
                         closing_price := specWalk (1/100) 2 ((fun _ => (0 : ℚ)) (priceVolRet [testFund] sec).2)
                           (fun d2 => (fun _ _ => (0 : ℚ)) d2 sec) (uniformQ 10 1000 ((fun _ => (0 : ℚ)) sec.security_id)) (d + 1),
                         fund_id := sec.fund_id } : PriceRow)))).flatten) ∧
    ((generate_genie_fund_daily_nav 1 none [testFund]
        (fun _ => 0) (fun _ _ => 0) (fun _ _ => 0) (fun _ => 0) (fun _ => 0)).map
        (fun r => (r.nav_day, r.fund_id, r.nav_per_share))
      = ((List.range 1).map (fun d => (fundsForType none [testFund]).map
          (fun f => (d, f.fund_id, specWalk (1/100) 4 ((fun _ => (0 : ℚ)) (navVolRet f).2)
            (fun d2 => (fun _ _ => (0 : ℚ)) d2 f) (uniformQ 50 150 ((fun _ => (0 : ℚ)) f.fund_id)) (d + 1))))).flatten) ∧
    (-(1/200) ≤ fxNoise (1/2) ∧ fxNoise (1/2) ≤ 1/200) :=
  ⟨time_series_random_walk_recurrence.1 1 none [testFund] [testSecurity]
      (fun _ => 0) (fun _ _ => 0) (fun _ => 0) (by simp [securitiesForType]),
   time_series_random_walk_recurrence.2.1 1 none [testFund]
      (fun _ => 0) (fun _ _ => 0) (fun _ _ => 0) (fun _ => 0) (fun _ => 0)
      (by simp [fundsForType]),
   time_series_random_walk_recurrence.2.2.2 (1/2) (by norm_num) (by norm_num)⟩

/-! ## `generate_mifid_transaction_report` (claim C6) -/

structure MifidRow where
  report_idx : ℕ
  fund_id : String
  fund_isin : String
  transaction_day : ℕ
  security_id : String
  isin : String
  security_name : String
  asset_class_mifid : String
  execution_venue : String
  investment_firm_lei : String
  client_id_type : String
  client_id_value : String
  buy_sell_indicator : String
  quantity : ℚ
  price : ℚ
  currency : String
  notional_amount : ℚ
  liquid_market_indicator : String
  waiver_indicator : String
  trading_capacity : String
  country_of_branch : String
deriving DecidableEq

/-- One MiFID report row; `none` models the `random.choice` raise on an empty
master shareholder list (reached only when the client is not the fund). The
shareholder's LEI is used only when it is present and truthy (non-empty) and
the shareholder is not an individual; otherwise a synthetic national id is
built. -/
def mifidRow (fund : Fund) (sff : List Security) (shs : List Shareholder)
    (i : ℕ) (un : ℕ → ℕ) (uq : ℕ → ℚ) : Option MifidRow :=
  let transaction_day := randintN 1 365 (un 0)
  let security_info := listChoice default sff (un 1)
  let exec_venue := if security_info.exchange_mic ≠ "N/A" then security_info.exchange_mic
                    else listChoice "" EXCHANGE_MICS (un 2)
  let client_entity_type := listChoice "" ["FUND", "SHAREHOLDER", "OTHER_INST"] (un 3)
  let client4 : Option (String × String) :=
    if client_entity_type = "FUND" then some ("LEI", fund.management_company_lei)
    else if shs.isEmpty then none
    else
      let sh := listChoice default shs (un 4)
      match sh.shareholder_lei with
      | some l =>
        if sh.shareholder_type ≠ "Individual" ∧ l ≠ "" then some ("LEI", l)
        else some ("NATID", "NATID" ++ toString (randintN 100000000 999999999 (un 5)))
      | none => some ("NATID", "NATID" ++ toString (randintN 100000000 999999999 (un 5)))
  match client4 with
  | none => none
  | some cl =>
    let quantity := roundQ 2 (uniformQ 10 1000 (uq 0))
    let price := roundQ 2 (uniformQ 50 1000 (uq 1))
    some { report_idx := i + 1, fund_id := fund.fund_id, fund_isin := fund.fund_isin,
           transaction_day := transaction_day, security_id := security_info.security_id,
           isin := security_info.isin, security_name := security_info.security_name,
           asset_class_mifid := security_info.asset_class, execution_venue := exec_venue,
           investment_firm_lei := fund.management_company_lei,
           client_id_type := cl.1, client_id_value := cl.2,
           buy_sell_indicator := listChoice "" ["BUY", "SELL"] (un 6),
           quantity := quantity, price := price,
           currency := security_info.currency,
           notional_amount := roundQ 2 (quantity * price),
           liquid_market_indicator := listChoice "" ["LIQM", "NLIQ"] (un 7),
           waiver_indicator :=
             listChoice "" ["SIZE", "ILQD", "RFPT", "OTHR", "NO_WAIVER"] (un 8),
           trading_capacity := listChoice "" ["DEAL", "MTCH", "AOTC"] (un 9),
           country_of_branch := listChoice "" COUNTRIES (un 10) }

def mifidLoop (fund : Fund) (sff : List Security) (shs : List Shareholder)
    (un : ℕ → ℕ → ℕ) (uq : ℕ → ℕ → ℚ) : ℕ → ℕ → Option (List MifidRow)
  | 0, _ => some []
  | c + 1, i =>
    match mifidRow fund sff shs i (un i) (uq i) with
    | none => none
    | some r =>
      match mifidLoop fund sff shs un uq c (i + 1) with
      | none => none
      | some rest => some (r :: rest)

def generate_mifid_transaction_report (n : ℕ) (filter : Option String)
    (fund_info : Option Fund) (funds : List Fund) (shs : List Shareholder)
    (secs : List Security) (fsel : ℕ) (un : ℕ → ℕ → ℕ) (uq : ℕ → ℕ → ℚ) :
    Option (List MifidRow) :=
  match resolveFund fund_info filter funds fsel with
  | none => none
  | some fund =>
    let sff := secs.filter (fun s => s.fund_id == fund.fund_id)
    if sff.isEmpty then some []
    else mifidLoop fund sff shs un uq n 0

/-! ## `generate_genie_trade_orders` (claim C6) -/

structure OrderRow where
  order_idx : ℕ
  fund_id : String
  fund_isin : String
  order_day : ℕ
  security_id : String
  isin : String
  security_name : String
  order_type : String
  quantity : ℕ
  limit_price : Option ℚ
  currency : String
  order_status : String
  trading_desk : String
  trader_id : String
deriving DecidableEq

/-- One trade order; `ur` is the bare `random.random()` sample deciding
whether a limit price is set. -/
def orderRow (fund : Fund) (sff : List Security) (i : ℕ)
    (un : ℕ → ℕ) (uq : ℕ → ℚ) (ur : ℚ) : OrderRow :=
  let order_day := randintN 1 365 (un 0)
  let security_info := listChoice default sff (un 1)
  { order_idx := i + 1, fund_id := fund.fund_id, fund_isin := fund.fund_isin,
    order_day := order_day, security_id := security_info.security_id,
    isin := security_info.isin, security_name := security_info.security_name,
    order_type := listChoice "" ["BUY", "SELL"] (un 2),
    quantity := randintN 100 5000 (un 3),
    limit_price := if ur > 3/10 then some (roundQ 2 (uniformQ 50 1000 (uq 0))) else none,
    currency := security_info.currency,
    order_status := listChoice "" ["NEW", "OPEN", "PARTIALLY_FILLED", "CANCELLED", "FILLED"] (un 4),
    trading_desk := listChoice "" ["Equity Trading", "Fixed Income Trading", "Derivatives Desk"] (un 5),
    trader_id := listChoice "" ["Trader A", "Trader B", "Trader C", "Trader D"] (un 6) }

def generate_genie_trade_orders (n : ℕ) (filter : Option String)
    (fund_info : Option Fund) (funds : List Fund) (secs : List Security)
    (fsel : ℕ) (un : ℕ → ℕ → ℕ) (uq : ℕ → ℕ → ℚ) (ur : ℕ → ℚ) :
    Option (List OrderRow) :=
  match resolveFund fund_info filter funds fsel with
  | none => none
  | some fund =>
    let sff := secs.filter (fun s => s.fund_id == fund.fund_id)
    if sff.isEmpty then some []
    else some ((List.range n).map (fun i => orderRow fund sff i (un i) (uq i) (ur i)))

/-! ## `generate_genie_executed_trades` (claim C6) -/

structure TradeRow where
  trade_idx : ℕ
  order_ref : ℕ
  fund_id : String
  fund_isin : String
  trade_day : ℕ
  security_id : String
  isin : String
  security_name : String
  trade_type : String
  quantity : ℕ
  execution_price : ℚ
  trade_amount : ℚ
  currency : String
  broker_id : String
  settlement_day : ℕ
  settlement_status : String
deriving DecidableEq

def tradeRow (fund : Fund) (sff : List Security) (num_trades i : ℕ)
    (un : ℕ → ℕ) (uq : ℕ → ℚ) : TradeRow :=
  let trade_day := randintN 1 365 (un 0)
  let security_info := listChoice default sff (un 1)
  let quantity := randintN 50 2500 (un 3)
  let execution_price := roundQ 2 (uniformQ 50 1000 (uq 0))
  { trade_idx := i + 1, order_ref := randintN 1 (num_trades + 1000) (un 4),
    fund_id := fund.fund_id, fund_isin := fund.fund_isin, trade_day := trade_day,
    security_id := security_info.security_id, isin := security_info.isin,
    security_name := security_info.security_name,
    trade_type := listChoice "" ["BUY", "SELL"] (un 2),
    quantity := quantity, execution_price := execution_price,
    trade_amount := roundQ 2 ((quantity : ℚ) * execution_price),
    currency := security_info.currency,
    broker_id := listChoice "" ["Brokerage A", "Brokerage B", "Brokerage C", "Brokerage D"] (un 5),
    settlement_day := trade_day + randintN 2 3 (un 6),
    settlement_status := listChoice "" ["SETTLED", "PENDING", "FAILED"] (un 7) }

def generate_genie_executed_trades (n : ℕ) (filter : Option String)
    (fund_info : Option Fund) (funds : List Fund) (secs : List Security)
    (fsel : ℕ) (un : ℕ → ℕ → ℕ) (uq : ℕ → ℕ → ℚ) : Option (List TradeRow) :=
  match resolveFund fund_info filter funds fsel with
  | none => none
  | some fund =>
    let sff := secs.filter (fun s => s.fund_id == fund.fund_id)
    if sff.isEmpty then some []
    else some ((List.range n).map (fun i => tradeRow fund sff n i (un i) (uq i)))

/-! ## `generate_genie_custody_holdings` (claim C6) -/

structure CustodyRow where
  snapshot_day : ℕ
  custodian_id : String
  fund_id : String
  fund_isin : String
  security_id : String
  isin : String
  security_name : String
  asset_class : String
  quantity : ℕ
  market_value : ℚ
  currency : String
  cost_basis : ℚ
  unrealized_gain_loss : ℚ
  safekeeping_location : String
deriving DecidableEq

/-- `pandas.sample(k)` without replacement: pick an index, remove the picked
element, recurse. Called only with `k ≤ l.length`, so the default is never
produced. -/
def sampleK {α : Type} (d : α) : ℕ → List α → (ℕ → ℕ) → List α
  | 0, _, _ => []
  | k + 1, l, sel =>
    let j := sel 0 % l.length
    l.getD j d :: sampleK d k (l.eraseIdx j) (fun i => sel (i + 1))

def custodyRow (fund : Fund) (custodian : Custodian) (today : ℕ)
    (sec : Security) (un : ℕ → ℕ) (uq : ℕ → ℚ) : CustodyRow :=
  let quantity := randintN 100 10000 (un 0)
  let current_price := uniformQ 50 1000 (uq 0)
  let market_value := roundQ 2 ((quantity : ℚ) * current_price)
  let cost_basis := roundQ 2 (market_value * uniformQ (8/10) (12/10) (uq 1))
  { snapshot_day := today, custodian_id := custodian.custodian_id,
    fund_id := fund.fund_id, fund_isin := fund.fund_isin,
    security_id := sec.security_id, isin := sec.isin,
    security_name := sec.security_name, asset_class := sec.asset_class,
    quantity := quantity, market_value := market_value, currency := sec.currency,
    cost_basis := cost_basis,
    unrealized_gain_loss := roundQ 2 (market_value - cost_basis),
    safekeeping_location :=
      listChoice "" ["DTC", "Euroclear", "Clearstream", "Local Sub-Custodian"] (un 1) }

/-- `generate_genie_custody_holdings`; `custodians` is the module-level
`MASTER_CUSTODIANS`, statically nonempty, so its `random.choice` never
raises. -/
def generate_genie_custody_holdings (n : ℕ) (filter : Option String)
    (fund_info : Option Fund) (funds : List Fund) (secs : List Security)
    (custodians : List Custodian) (fsel csel : ℕ) (ssel : ℕ → ℕ)
    (un : ℕ → ℕ → ℕ) (uq : ℕ → ℕ → ℚ) (today : ℕ) : Option (List CustodyRow) :=
  match resolveFund fund_info filter funds fsel with
  | none => none
  | some fund =>
    let custodian := listChoice default custodians csel
    let sff := secs.filter (fun s => s.fund_id == fund.fund_id)
    if sff.isEmpty then some []
    else
      let sampled := sampleK default (min n sff.length) sff ssel
      some (sampled.enum.map (fun p => custodyRow fund custodian today p.2 (un p.1) (uq p.1)))

/-- Claim C6: for a fund whose associated-security set in the master security
table is empty, each securities-dependent generator returns an empty table
and does not raise, for every requested record count (and all other
arguments). -/
theorem empty_security_set_yields_empty_tables
    (fund : Fund) (secs : List Security)
    (hsec : secs.filter (fun s => s.fund_id == fund.fund_id) = []) :
    (∀ (n : ℕ) (filter : Option String) (funds : List Fund)
        (shs : List Shareholder) (fsel : ℕ) (un : ℕ → ℕ → ℕ) (uq : ℕ → ℕ → ℚ),
      generate_mifid_transaction_report n filter (some fund) funds shs secs fsel un uq
        = some []) ∧
    (∀ (n : ℕ) (filter : Option String) (funds : List Fund) (fsel : ℕ)
        (un : ℕ → ℕ → ℕ) (uq : ℕ → ℕ → ℚ) (ur : ℕ → ℚ),
      generate_genie_trade_orders n filter (some fund) funds secs fsel un uq ur
        = some []) ∧
    (∀ (n : ℕ) (filter : Option String) (funds : List Fund) (fsel : ℕ)
        (un : ℕ → ℕ → ℕ) (uq : ℕ → ℕ → ℚ),
      generate_genie_executed_trades n filter (some fund) funds secs fsel un uq
        = some []) ∧
    (∀ (n : ℕ) (filter : Option String) (funds : List Fund)
        (custodians : List Custodian) (fsel csel : ℕ) (ssel : ℕ → ℕ)
        (un : ℕ → ℕ → ℕ) (uq : ℕ → ℕ → ℚ) (today : ℕ),
      generate_genie_custody_holdings n filter (some fund) funds secs custodians
        fsel csel ssel un uq today = some []) := by
  refine ⟨?_, ?_, ?_, ?_⟩
  · intro n filter funds shs fsel un uq
    simp [generate_mifid_transaction_report, resolveFund, hsec]
  · intro n filter funds fsel un uq ur
    simp [generate_genie_trade_orders, resolveFund, hsec]
  · intro n filter funds fsel un uq
    simp [generate_genie_executed_trades, resolveFund, hsec]
  · intro n filter funds custodians fsel csel ssel un uq today
    simp [generate_genie_custody_holdings, resolveFund, hsec]

/-- Claim C6 witness: the theorem applied to the test fund against an empty
master security table. -/
theorem empty_security_set_yields_empty_tables_witness :
    generate_mifid_transaction_report 7 none (some testFund) [] [testShareholder] []
        0 (fun _ _ => 0) (fun _ _ => 0) = some [] ∧
    generate_genie_trade_orders 7 none (some testFund) [] [] 0
        (fun _ _ => 0) (fun _ _ => 0) (fun _ => 0) = some [] ∧
    generate_genie_executed_trades 7 none (some testFund) [] [] 0
        (fun _ _ => 0) (fun _ _ => 0) = some [] ∧
    generate_genie_custody_holdings 7 none (some testFund) [] []
        (MASTER_CUSTODIANS (fun _ => "LEI0") (fun _ => "BIC0")) 0 0 (fun _ => 0)
        (fun _ _ => 0) (fun _ _ => 0) 0 = some [] :=
  ⟨(empty_security_set_yields_empty_tables testFund [] rfl).1 7 none [] [testShareholder]
      0 (fun _ _ => 0) (fun _ _ => 0),
   (empty_security_set_yields_empty_tables testFund [] rfl).2.1 7 none [] 0
      (fun _ _ => 0) (fun _ _ => 0) (fun _ => 0),
   (empty_security_set_yields_empty_tables testFund [] rfl).2.2.1 7 none [] 0
      (fun _ _ => 0) (fun _ _ => 0),
   (empty_security_set_yields_empty_tables testFund [] rfl).2.2.2 7 none []
      (MASTER_CUSTODIANS (fun _ => "LEI0") (fun _ => "BIC0")) 0 0 (fun _ => 0)
      (fun _ _ => 0) (fun _ _ => 0) 0⟩

/-! ## `generate_portfolio_data`, `generate_cash_net_activity`,
`generate_genie_fund_characteristics` (needed by the dispatcher, claim C8) -/

structure PortfolioRow where
  portfolio_day : ℕ
  fund_id : String
  fund_isin : String
  fund_type : String
  isin : String
  security_name : String
  asset_class : String
  quantity : ℚ
  cost_basis_per_share : ℚ
  total_cost_basis : ℚ
  current_nav_per_share : ℚ
  market_value : ℚ
  unrealized_gain_loss : ℚ
  currency : String
  ta_account_id : String
  shareholder_id : String
  distributor_id : String
  representative_id : String
deriving DecidableEq

/-- `generate_portfolio_data`: holdings for `min(n, len(ta_accounts))`
distinct sampled accounts; the per-day return again goes through the opaque
float power `dailyRet`. -/
def generate_portfolio_data (n : ℕ) (filter : Option String)
    (fund_info : Option Fund) (funds : List Fund) (tas : List TAAccount)
    (fsel : ℕ) (ssel : ℕ → ℕ) (uq : ℕ → ℕ → ℚ) (g : ℕ → ℚ)
    (dailyRet : ℚ → ℚ) (today : ℕ) : Option (List PortfolioRow) :=
  let cfgavg := match fundTypesGet filter with
                | some c => c.avg_annual_return_pct
                | none => 5/100
  let daily_return := dailyRet cfgavg
  match resolveFund fund_info filter funds fsel with
  | none => none
  | some fund =>
    let sampled := sampleK default (min n tas.length) tas ssel
    some (sampled.enum.map (fun p =>
      let ta := p.2
      let quantity := roundQ 4 (uniformQ 500 50000 (uq p.1 0))
      let cost := roundQ 2 (uniformQ 10 400 (uq p.1 1))
      let nav0 := roundQ 2 (cost * (1 + daily_return + g p.1))
      let nav := if nav0 < 1/100 then 1/100 else nav0
      let market_value := roundQ 2 (quantity * nav)
      let cost_total := roundQ 2 (quantity * cost)
      { portfolio_day := today, fund_id := fund.fund_id,
        fund_isin := fund.fund_isin, fund_type := fund.fund_type,
        isin := fund.fund_isin,
        security_name := fund.fund_name ++ " Share Class",
        asset_class := "Fund Share", quantity := quantity,
        cost_basis_per_share := cost, total_cost_basis := cost_total,
        current_nav_per_share := nav, market_value := market_value,
        unrealized_gain_loss := roundQ 2 (market_value - cost_total),
        currency := ta.account_currency, ta_account_id := ta.ta_account_id,
        shareholder_id := ta.shareholder_id, distributor_id := ta.distributor_id,
        representative_id := ta.representative_id }))

structure CashRow where
  activity_idx : ℕ
  fund_id : String
  fund_type : String
  activity_day : ℕ
  ta_account_id : String
  shareholder_id : String
  distributor_id : String
  representative_id : String
  activity_type : String
  currency : String
  amount : ℚ
  description : String
deriving DecidableEq

/-- Python's `needle in haystack` substring test, on the character lists. -/
def strContains (hay nd : String) : Bool :=
  (List.range (hay.data.length + 1)).any (fun i => nd.data.isPrefixOf (hay.data.drop i))

def cashRow (fund : Fund) (tas : List TAAccount) (i : ℕ)
    (un : ℕ → ℕ) (uq : ℕ → ℚ) : CashRow :=
  let activity_day := randintN 1 365 (un 0)
  let ta := listChoice default tas (un 1)
  let activity_type := listChoice ""
    ["Subscription Cash In", "Redemption Cash Out", "Dividend Payment",
     "Fee Payment", "Other Adjustment"] (un 2)
  { activity_idx := i + 1, fund_id := fund.fund_id, fund_type := fund.fund_type,
    activity_day := activity_day, ta_account_id := ta.ta_account_id,
    shareholder_id := ta.shareholder_id, distributor_id := ta.distributor_id,
    representative_id := ta.representative_id, activity_type := activity_type,
    currency := ta.account_currency,
    amount := roundQ 2 (uniformQ 100 50000 (uq 0)
      * (if strContains activity_type "In" then 1 else -1)),
    description := activity_type ++ " for account " ++ ta.ta_account_id }

def generate_cash_net_activity (n : ℕ) (filter : Option String)
    (fund_info : Option Fund) (funds : List Fund) (tas : List TAAccount)
    (fsel : ℕ) (un : ℕ → ℕ → ℕ) (uq : ℕ → ℕ → ℚ) : Option (List CashRow) :=
  match resolveFund fund_info filter funds fsel with
  | none => none
  | some fund =>
    if 0 < n ∧ tas.isEmpty then none
    else some ((List.range n).map (fun i => cashRow fund tas i (un i) (uq i)))

/-- A fund-characteristics row: the master fund record with the three columns
the generator appends. -/
structure FundCharRow where
  fund : Fund
  is_active : Bool
  aum_current_estimate : ℚ
  is_open_ended : Bool
deriving DecidableEq

def generate_genie_fund_characteristics (funds : List Fund)
    (bsel : ℕ → ℕ) (uq : ℕ → ℚ) : List FundCharRow :=
  funds.enum.map (fun p =>
    { fund := p.2,
      is_active := listChoice true [true, false] (bsel p.1),
      aum_current_estimate := roundQ 2 (uniformQ (p.2.target_aum_min * (8/10))
        (p.2.target_aum_max * (12/10)) (uq p.1)),
      is_open_ended := ["UCITS", "AIF", "Unit Trust"].contains p.2.legal_structure })

/-! ## The dispatcher `generate_selected_reports` (claim C8)

The lazily initialized module-level master state (`MASTER_ENTITIES`,
`MASTER_FUNDS_DF`, `MASTER_SECURITIES_DF`, `MASTER_CUSTODIANS`) is modelled
by passing the post-initialization master lists explicitly; the oracle bundle
`GenOracle` carries each generator's random streams. -/

structure GenOracle where
  fin_u0 : ℚ
  fin_u : ℕ → ℕ → ℚ
  tx_uq : ℕ → ℕ → ℚ
  tx_un : ℕ → ℕ → ℕ
  pf_ssel : ℕ → ℕ
  pf_uq : ℕ → ℕ → ℚ
  pf_g : ℕ → ℚ
  cash_un : ℕ → ℕ → ℕ
  cash_uq : ℕ → ℕ → ℚ
  mifid_un : ℕ → ℕ → ℕ
  mifid_uq : ℕ → ℕ → ℚ
  ord_un : ℕ → ℕ → ℕ
  ord_uq : ℕ → ℕ → ℚ
  ord_ur : ℕ → ℚ
  trd_un : ℕ → ℕ → ℕ
  trd_uq : ℕ → ℕ → ℚ
  px_g : ℕ → Security → ℚ
  px_init : String → ℚ
  fc_bsel : ℕ → ℕ
  fc_uq : ℕ → ℚ
  nav_g : ℕ → Fund → ℚ
  nav_us : ℕ → Fund → ℚ
  nav_i1 : String → ℚ
  nav_i2 : String → ℚ
  cust_csel : ℕ
  cust_ssel : ℕ → ℕ
  cust_un : ℕ → ℕ → ℕ
  cust_uq : ℕ → ℕ → ℚ
  tb_bdraw : ℕ → String → Bool
  tb_adraw : ℕ → String → ℚ
  tb_tsel : ℕ → ℕ
  ca_un : ℕ → ℕ → ℕ
  ca_uq : ℕ → ℕ → ℚ
  fx_u : ℕ → String × String → ℚ
  fx_init : String × String → ℚ

/-- The named tables any dispatcher run can produce, one constructor per
report row type. -/
inductive ReportTable where
  | fin : List FinRow → ReportTable
  | tx : List TxRow → ReportTable
  | pf : List PortfolioRow → ReportTable
  | cash : List CashRow → ReportTable
  | mifid : List MifidRow → ReportTable
  | ord : List OrderRow → ReportTable
  | trd : List TradeRow → ReportTable
  | px : List PriceRow → ReportTable
  | fc : List FundCharRow → ReportTable
  | nav : List NavRow → ReportTable
  | cust : List CustodyRow → ReportTable
  | tb : List TBEntry → ReportTable
  | ca : List CARow → ReportTable
  | fx : List FxRow → ReportTable

/-- The fourteen report names offered by the UI, in dispatcher order. -/
def AVAILABLE_REPORTS : List String :=
  ["Financial Statements", "TA Securities Transactions", "TA Portfolio Holdings",
   "TA Cash Net Activity", "MiFID II Transaction Report", "Genie - Trade Orders",
   "Genie - Executed Trades", "Genie - Daily Security Prices",
   "Genie - Custody Holdings", "Genie - Fund Characteristics",
   "Genie - Fund Daily NAV", "Genie - Fund Accounting Trial Balance",
   "Genie - Corporate Actions", "Genie - FX Rates"]

/-- The fourteen table names the dispatcher can emit. -/
def REPORT_TABLE_NAMES : List String :=
  ["financial_statements", "ta_securities_transactions", "ta_portfolio_holdings",
   "ta_cash_net_activity", "mifid_transaction_report", "genie_trade_orders",
   "genie_executed_trades", "genie_daily_security_prices",
   "genie_custody_holdings", "genie_fund_characteristics",
   "genie_fund_daily_nav", "genie_fund_accounting_trial_balance",
   "genie_corporate_actions", "genie_fx_rates"]

/-- The dispatcher body, one entry per `if "..." in reports_to_generate_list`
block, in source order, with the source's per-report record-count
multipliers. -/
def reportCatalog (filter : Option String) (n : ℕ) (fund : Fund)
    (funds : List Fund) (secs : List Security) (tas : List TAAccount)
    (shs : List Shareholder) (custodians : List Custodian)
    (dailyRet : ℚ → ℚ) (today : ℕ) (o : GenOracle) :
    List (String × String × Option ReportTable) :=
  [("Financial Statements", "financial_statements",
     (generate_financial_statements n (some fund) funds 0 o.fin_u0 o.fin_u).map
       ReportTable.fin),
   ("TA Securities Transactions", "ta_securities_transactions",
     (generate_securities_transactions (n * 5) filter (some fund) funds tas 0
       o.tx_uq o.tx_un).map ReportTable.tx),
   ("TA Portfolio Holdings", "ta_portfolio_holdings",
     (generate_portfolio_data n filter (some fund) funds tas 0
       o.pf_ssel o.pf_uq o.pf_g dailyRet today).map ReportTable.pf),
   ("TA Cash Net Activity", "ta_cash_net_activity",
     (generate_cash_net_activity (n * 3) filter (some fund) funds tas 0
       o.cash_un o.cash_uq).map ReportTable.cash),
   ("MiFID II Transaction Report", "mifid_transaction_report",
     (generate_mifid_transaction_report (n * 10) filter (some fund) funds shs secs 0
       o.mifid_un o.mifid_uq).map ReportTable.mifid),
   ("Genie - Trade Orders", "genie_trade_orders",
     (generate_genie_trade_orders (n * 8) filter (some fund) funds secs 0
       o.ord_un o.ord_uq o.ord_ur).map ReportTable.ord),
   ("Genie - Executed Trades", "genie_executed_trades",
     (generate_genie_executed_trades (n * 7) filter (some fund) funds secs 0
       o.trd_un o.trd_uq).map ReportTable.trd),
   ("Genie - Daily Security Prices", "genie_daily_security_prices",
     some (ReportTable.px (generate_genie_daily_security_prices (n * 5) filter
       funds secs dailyRet o.px_g o.px_init))),
   ("Genie - Custody Holdings", "genie_custody_holdings",
     (generate_genie_custody_holdings (n * 2) filter (some fund) funds secs
       custodians 0 o.cust_csel o.cust_ssel o.cust_un o.cust_uq today).map
       ReportTable.cust),
   ("Genie - Fund Characteristics", "genie_fund_characteristics",
     some (ReportTable.fc (generate_genie_fund_characteristics funds
       o.fc_bsel o.fc_uq))),
   ("Genie - Fund Daily NAV", "genie_fund_daily_nav",
     some (ReportTable.nav (generate_genie_fund_daily_nav (n * 5) filter funds
       dailyRet o.nav_g o.nav_us o.nav_i1 o.nav_i2))),
   ("Genie - Fund Accounting Trial Balance", "genie_fund_accounting_trial_balance",
     (generate_genie_fund_accounting_trial_balance n filter (some fund) funds 0
       o.tb_bdraw o.tb_adraw o.tb_tsel).map ReportTable.tb),
   ("Genie - Corporate Actions", "genie_corporate_actions",
     some (ReportTable.ca (generate_genie_corporate_actions n filter funds secs
       o.ca_un o.ca_uq))),
   ("Genie - FX Rates", "genie_fx_rates",
     some (ReportTable.fx (generate_genie_fx_rates (n * 5) o.fx_u o.fx_init)))]

/-- One catalog entry of the dispatcher: append the named table when the
report is selected (propagating a generator's raise), keep the mapping
unchanged otherwise. -/
def stepReport (reports : List String) (acc : Option (List (String × ReportTable)))
    (ent : String × String × Option ReportTable) :
    Option (List (String × ReportTable)) :=
  match acc with
  | none => none
  | some l =>
    if ent.1 ∈ reports then (ent.2.2).map (fun t => l ++ [(ent.2.1, t)])
    else some l

def generate_selected_reports (filter : Option String) (n : ℕ)
    (reports : List String) (funds : List Fund) (secs : List Security)
    (tas : List TAAccount) (shs : List Shareholder)
    (custodians : List Custodian) (dailyRet : ℚ → ℚ) (today : ℕ)
    (fsel : ℕ) (o : GenOracle) : Option (List (String × ReportTable)) :=
  match get_random_fund_info filter funds fsel with
  | none => none
  | some fund =>
    (reportCatalog filter n fund funds secs tas shs custodians dailyRet today o).foldl
      (stepReport reports) (some [])

theorem stepReport_fold_keys (T : List String) :
    ∀ (cat : List (String × String × Option ReportTable)) (reports : List String)
      (acc : Option (List (String × ReportTable))),
      (∀ e ∈ cat, e.2.1 ∈ T) →
      (∀ l, acc = some l → ∀ k ∈ l.map Prod.fst, k ∈ T) →
      ∀ m, cat.foldl (stepReport reports) acc = some m →
        ∀ k ∈ m.map Prod.fst, k ∈ T := by
  intro cat
  induction cat with
  | nil =>
    intro reports acc _ hacc m hm
    rw [List.foldl_nil] at hm
    exact hacc m hm
  | cons e cat ih =>
    intro reports acc hcat hacc m hm
    rw [List.foldl_cons] at hm
    refine ih reports (stepReport reports acc e)
      (fun e2 he2 => hcat e2 (List.mem_cons_of_mem e he2)) ?_ m hm
    intro l hl k hk
    unfold stepReport at hl
    cases acc with
    | none => simp at hl
    | some l0 =>
      dsimp only at hl
      by_cases hsel : e.1 ∈ reports
      · rw [if_pos hsel] at hl
        cases ht : e.2.2 with
        | none => rw [ht] at hl; simp at hl
        | some t =>
          rw [ht] at hl
          simp only [Option.map_some', Option.some.injEq] at hl
          subst hl
          simp only [List.map_append, List.mem_append, List.map_cons, List.map_nil,
            List.mem_singleton] at hk
          rcases hk with hk | hk
          · exact hacc l0 rfl k hk
          · rw [hk]
            exact hcat e (List.mem_cons_self e cat)
      · rw [if_neg hsel] at hl
        simp only [Option.some.injEq] at hl
        subst hl
        exact hacc l0 rfl k hk

theorem stepReport_fold_congr :
    ∀ (cat : List (String × String × Option ReportTable)) (r1 r2 : List String)
      (acc : Option (List (String × ReportTable))),
      (∀ e ∈ cat, (e.1 ∈ r1 ↔ e.1 ∈ r2)) →
      cat.foldl (stepReport r1) acc = cat.foldl (stepReport r2) acc := by
  intro cat
  induction cat with
  | nil => intro r1 r2 acc _; rfl
  | cons e cat ih =>
    intro r1 r2 acc hiff
    rw [List.foldl_cons, List.foldl_cons]
    have hstep : stepReport r1 acc e = stepReport r2 acc e := by
      unfold stepReport
      cases acc with
      | none => rfl
      | some l0 =>
        dsimp only
        rw [if_congr (hiff e (List.mem_cons_self e cat)) rfl rfl]
    rw [hstep]
    exact ih r1 r2 _ (fun e2 he2 => hiff e2 (List.mem_cons_of_mem e he2))

theorem reportCatalog_names (filter : Option String) (n : ℕ) (fund : Fund)
    (funds : List Fund) (secs : List Security) (tas : List TAAccount)
    (shs : List Shareholder) (custodians : List Custodian)
    (dailyRet : ℚ → ℚ) (today : ℕ) (o : GenOracle) :
    ∀ e ∈ reportCatalog filter n fund funds secs tas shs custodians dailyRet today o,
      e.1 ∈ AVAILABLE_REPORTS ∧ e.2.1 ∈ REPORT_TABLE_NAMES := by
  intro e he
  simp only [reportCatalog, List.mem_cons, List.not_mem_nil, or_false] at he
  rcases he with rfl | rfl | rfl | rfl | rfl | rfl | rfl | rfl | rfl | rfl | rfl | rfl | rfl | rfl <;>
    exact ⟨by simp [AVAILABLE_REPORTS], by simp [REPORT_TABLE_NAMES]⟩

/-- Claim C8: the dispatcher ignores report names outside its fourteen-entry
catalog: (a) whenever a run returns a mapping, every key of the mapping is
one of the fourteen catalogued table names; (b) the whole run is unchanged
when the requested list is restricted to its catalogued names — an unknown
requested name contributes no entry and raises nothing. -/
theorem dispatcher_ignores_unknown_reports :
    (∀ (filter : Option String) (n : ℕ) (reports : List String)
        (funds : List Fund) (secs : List Security) (tas : List TAAccount)
        (shs : List Shareholder) (custodians : List Custodian)
        (dailyRet : ℚ → ℚ) (today : ℕ) (fsel : ℕ) (o : GenOracle)
        (m : List (String × ReportTable)),
      generate_selected_reports filter n reports funds secs tas shs custodians
          dailyRet today fsel o = some m →
      ∀ k ∈ m.map Prod.fst, k ∈ REPORT_TABLE_NAMES) ∧
    (∀ (filter : Option String) (n : ℕ) (reports : List String)
        (funds : List Fund) (secs : List Security) (tas : List TAAccount)
        (shs : List Shareholder) (custodians : List Custodian)
        (dailyRet : ℚ → ℚ) (today : ℕ) (fsel : ℕ) (o : GenOracle),
      generate_selected_reports filter n reports funds secs tas shs custodians
          dailyRet today fsel o
        = generate_selected_reports filter n
            (reports.filter (fun r => r ∈ AVAILABLE_REPORTS)) funds secs tas shs
            custodians dailyRet today fsel o) := by
  constructor
  · intro filter n reports funds secs tas shs custodians dailyRet today fsel o m hm
    unfold generate_selected_reports at hm
    cases hf : get_random_fund_info filter funds fsel with
    | none => rw [hf] at hm; exact absurd hm (by simp)
    | some fund =>
      rw [hf] at hm
      exact stepReport_fold_keys REPORT_TABLE_NAMES _ reports (some [])
        (fun e he => (reportCatalog_names filter n fund funds secs tas shs
          custodians dailyRet today o e he).2)
        (fun l hl k hk => by
          simp only [Option.some.injEq] at hl
          subst hl
          simp at hk) m hm
  · intro filter n reports funds secs tas shs custodians dailyRet today fsel o
    unfold generate_selected_reports
    cases hf : get_random_fund_info filter funds fsel with
    | none => rfl
    | some fund =>
      refine stepReport_fold_congr _ reports _ (some []) (fun e he => ?_)
      have hav := (reportCatalog_names filter n fund funds secs tas shs
        custodians dailyRet today o e he).1
      constructor
      · intro h1
        refine List.mem_filter.mpr ⟨h1, ?_⟩
        simpa using hav
      · intro h1
        exact (List.mem_filter.mp h1).1

/-- The all-zero oracle bundle used by the dispatcher witness. -/
def testOracle : GenOracle :=
  { fin_u0 := 0, fin_u := fun _ _ => 0, tx_uq := fun _ _ => 0,
    tx_un := fun _ _ => 0, pf_ssel := fun _ => 0, pf_uq := fun _ _ => 0,
    pf_g := fun _ => 0, cash_un := fun _ _ => 0, cash_uq := fun _ _ => 0,
    mifid_un := fun _ _ => 0, mifid_uq := fun _ _ => 0, ord_un := fun _ _ => 0,
    ord_uq := fun _ _ => 0, ord_ur := fun _ => 0, trd_un := fun _ _ => 0,
    trd_uq := fun _ _ => 0, px_g := fun _ _ => 0, px_init := fun _ => 0,
    fc_bsel := fun _ => 0, fc_uq := fun _ => 0, nav_g := fun _ _ => 0,
    nav_us := fun _ _ => 0, nav_i1 := fun _ => 0, nav_i2 := fun _ => 0,
    cust_csel := 0, cust_ssel := fun _ => 0, cust_un := fun _ _ => 0,
    cust_uq := fun _ _ => 0, tb_bdraw := fun _ _ => true,
    tb_adraw := fun _ _ => 0, tb_tsel := fun _ => 0, ca_un := fun _ _ => 0,
    ca_uq := fun _ _ => 0, fx_u := fun _ _ => 0, fx_init := fun _ => 0 }

/-- Claim C8 witness: a concrete run requesting one catalogued report and one
unknown name returns a one-entry mapping whose key is a catalogued table
name. -/
theorem dispatcher_ignores_unknown_reports_witness :
    "genie_fx_rates" ∈ REPORT_TABLE_NAMES :=
  dispatcher_ignores_unknown_reports.1 none 1
    ["Genie - FX Rates", "Bogus Report"] [testFund] [testSecurity] [testAccount]
    [testShareholder] (MASTER_CUSTODIANS (fun _ => "LEI0") (fun _ => "BIC0"))
    (fun _ => 0) 0 0 testOracle
    [("genie_fx_rates", ReportTable.fx
      (generate_genie_fx_rates (1 * 5) testOracle.fx_u testOracle.fx_init))]
    rfl "genie_fx_rates" (by simp)
